import Mathlib

/-!
Verification of the Nexus SEO Intelligence scanner and AI-service layer.

This file shallowly embeds the logic of `src/seo_scanner.py` (class
`SEOScanner`) and `src/ai_service.py` (class `AIService`) in Lean 4 and
proves properties of the embedded definitions.

Modelling conventions:
* Python `str` values that need character-level reasoning (URLs, hrefs)
  are modelled as `List Char`; other strings are Lean `String`s.
* Python `int` is `Int` (or `Nat` where the source value is a count).
* The float arithmetic of `_calculate_scores` (weights
  `0.35/0.35/0.20/0.10`, four multiplications, three additions, then
  `int(...)`) is modelled exactly as IEEE-754 binary64: every value in
  the pipeline is an integer multiple of `2 ^ -56`, represented as an
  integer scaled by `2 ^ 56`, and each operation rounds to the nearest
  representable double (ties to even) via `roundScaled`; `int(...)` of
  the non-negative result is floor, i.e. division by `2 ^ 56`.
* External calls (Supabase, HTTP, the HTML parser, `json.loads`, the
  Gemini model) are modelled by an explicit environment record: each
  call either returns a value or raises, the raised Python exception
  being `Except.error msg`.
* A Python value used in boolean position follows Python truthiness:
  `None` and `""` are falsy, a list is falsy iff empty.
-/

namespace NexusSEO

/-! ## Python-style string helpers (on `List Char` / `String`) -/

/-- Python truthiness of an optional string: `None` and `""` are falsy. -/
def pyTruthyStr : Option String → Bool
  | none => false
  | some s => s ≠ ""

/-- Python truthiness of an optional char-list (e.g. an attribute value). -/
def pyTruthyChars : Option (List Char) → Bool
  | none => false
  | some s => s ≠ []

/-- Whitespace-separated words of a string, as in Python `str.split()`
(runs of whitespace separate, no empty words). -/
def pyWords (s : String) : List (List Char) :=
  (s.toList.splitOnP Char.isWhitespace).filter (· ≠ [])

/-- Model of Python `str.strip()`: drop leading and trailing whitespace. -/
def pyStrip (s : String) : String :=
  String.mk (((s.toList.dropWhile Char.isWhitespace).reverse.dropWhile
    Char.isWhitespace).reverse)

/-- Model of Python `int(str)` on a header-like string: optional sign and
digits, possibly surrounded by whitespace; `none` when `int()` would raise
`ValueError`. -/
def pyParseInt (s : List Char) : Option Int :=
  let t := (s.dropWhile Char.isWhitespace).reverse.dropWhile Char.isWhitespace |>.reverse
  let (neg, digits) :=
    match t with
    | '-' :: rest => (true, rest)
    | '+' :: rest => (false, rest)
    | _ => (false, t)
  if digits = [] ∨ ¬ digits.all Char.isDigit then none
  else
    let n := digits.foldl (fun acc c => 10 * acc + (c.toNat - '0'.toNat)) 0
    some (if neg then -(n : Int) else (n : Int))

/-- `needle` occurs as a contiguous substring of `hay`. -/
def containsSub (hay needle : List Char) : Bool :=
  (List.range (hay.length + 1)).any (fun i => needle.isPrefixOf (hay.drop i))

/-! ## URL parsing (model of `urllib.parse`) -/

/-- Characters that terminate the `netloc` component in
`urllib.parse.urlparse`. -/
def netlocEnd (c : Char) : Bool := c = '/' ∨ c = '?' ∨ c = '#'

/-- Characters allowed in a URL scheme after the leading letter. -/
def schemeChar (c : Char) : Bool := c.isAlphanum ∨ c = '+' ∨ c = '-' ∨ c = '.'

/-- Model of `urllib.parse.urlparse` restricted to the `scheme` and
`netloc` components — the only components this repository reads.  A
scheme is a non-empty run of scheme characters starting with a letter
and ending at the first `':'`; it is lowercased.  The netloc is present
only when the remainder starts with `"//"` and extends to the next
`'/'`, `'?'` or `'#'`.  (The `ValueError` CPython raises on an
unbalanced `'['` in the netloc is not modelled; the one caller wraps
`urlparse` in a `try/except` returning `None`.) -/
def urlparse_scheme_netloc (s : List Char) : List Char × List Char :=
  let pre := s.takeWhile (· ≠ ':')
  let (scheme, rest) :=
    if pre.length < s.length ∧ pre ≠ [] ∧ (pre.headD ' ').isAlpha ∧ pre.all schemeChar
    then (pre.map Char.toLower, s.drop (pre.length + 1))
    else ([], s)
  match rest with
  | '/' :: '/' :: r => (scheme, r.takeWhile (fun c => ¬ netlocEnd c))
  | _ => (scheme, [])

/-- The characters of `"http://"`. -/
def httpMarker : List Char := ['h', 't', 't', 'p', ':', '/', '/']

/-- The characters of `"https://"`. -/
def httpsMarker : List Char := ['h', 't', 't', 'p', 's', ':', '/', '/']

/-- Python `str.replace(pat, rep, 1)` for a non-empty pattern: replace
the first occurrence of `pat`, if any. -/
def replaceFirst (pat rep : List Char) : List Char → List Char
  | [] => []
  | c :: s =>
    if pat.isPrefixOf (c :: s) then rep ++ (c :: s).drop pat.length
    else c :: replaceFirst pat rep s

/-! ## HTML document model (the parsed `BeautifulSoup` tree)

The scanner only reads tags, attributes and text, so a parsed page is a
forest of element/text nodes.  `BeautifulSoup(html, 'html.parser')`
itself is an external library; the scan environment supplies the
`String → Soup` parsing function. -/

inductive Node where
  | elem (tag : String) (attrs : List (String × String)) (children : List Node)
  | text (s : String)
deriving Repr

/-- A parsed document: the forest of top-level nodes. -/
abbrev Soup := List Node

/-- `tag.get(key)`: first binding of an attribute, if present. -/
def attrGet (attrs : List (String × String)) (k : String) : Option String :=
  (attrs.find? (fun kv => kv.1 = k)).map (·.2)

/-- The attribute list of a node (a text node has none). -/
def Node.attrsOf : Node → List (String × String)
  | .elem _ a _ => a
  | .text _ => []

mutual

/-- All element nodes (in document order, descendants included, also
inside matches) whose tag and attributes satisfy `p` — the search order
of BeautifulSoup `find_all`. -/
def findAllNode (p : String → List (String × String) → Bool) : Node → List Node
  | Node.text _ => []
  | Node.elem t a c =>
    (if p t a then [Node.elem t a c] else []) ++ findAllNodes p c

def findAllNodes (p : String → List (String × String) → Bool) : List Node → List Node
  | [] => []
  | n :: ns => findAllNode p n ++ findAllNodes p ns

end

/-- `soup.find_all(tag)`. -/
def findAllTag (tag : String) (soup : Soup) : List Node :=
  findAllNodes (fun t _ => t = tag) soup

/-- `soup.find(tag)`: the first match in document order. -/
def findTag (tag : String) (soup : Soup) : Option Node :=
  (findAllTag tag soup).head?

/-- `soup.find(tag, attrs={k: v})`. -/
def findTagAttr (tag k v : String) (soup : Soup) : Option Node :=
  (findAllNodes (fun t a => t = tag ∧ attrGet a k = some v) soup).head?

mutual

/-- The text fragments of a node, in document order. -/
def nodeTexts : Node → List String
  | Node.text s => [s]
  | Node.elem _ _ c => nodesTexts c

def nodesTexts : List Node → List String
  | [] => []
  | n :: ns => nodeTexts n ++ nodesTexts ns

end

/-- `node.get_text()`: concatenation of all text fragments. -/
def nodeGetText (n : Node) : String := String.join (nodeTexts n)

mutual

/-- `element.decompose()` applied to every element whose tag is in
`tags`: the node survives (with its pruned children) unless its tag
matches. -/
def removeTagsNode (tags : List String) : Node → List Node
  | Node.text s => [Node.text s]
  | Node.elem t a c =>
    if t ∈ tags then [] else [Node.elem t a (removeTagsNodes tags c)]

def removeTagsNodes (tags : List String) : List Node → List Node
  | [] => []
  | n :: ns => removeTagsNode tags n ++ removeTagsNodes tags ns

end

end NexusSEO

namespace NexusSEO.SEOScanner

/-! ## Scoring data model (`SEOScanner`)

The dictionaries produced by `_extract_metadata`, `_analyze_technical`,
`_analyze_content` and `_analyze_images` in `src/seo_scanner.py`. -/

structure Metadata where
  title : Option String
  meta_description : Option String
  h1_tags : List String
  canonical_url : Option String
  robots_meta : Option String
deriving Repr, DecidableEq

structure Technical where
  http_status : Nat
  has_ssl : Bool
  page_size_kb : Nat
  load_time_ms : Nat
  is_mobile_friendly : Bool
deriving Repr, DecidableEq

structure HeadingCounts where
  h1 : Nat
  h2 : Nat
  h3 : Nat
  h4 : Nat
  h5 : Nat
  h6 : Nat
deriving Repr, DecidableEq

structure Content where
  word_count : Nat
  heading_counts : HeadingCounts
deriving Repr, DecidableEq

structure Images where
  image_count : Nat
  images_without_alt : Nat
  potentially_large_images : Nat
deriving Repr, DecidableEq

/-- Result of `_identify_issues`: the four severity buckets.  The counts
stored in the scan record are the lengths of these lists. -/
structure Issues where
  critical : List String
  high : List String
  medium : List String
  low : List String
deriving Repr, DecidableEq

structure Scores where
  overall_score : Int
  technical_score : Int
  content_score : Int
  performance_score : Int
  accessibility_score : Int
deriving Repr, DecidableEq

/-- The second half of `SEOScanner._normalize_url` (src/seo_scanner.py),
acting on the URL after the scheme-prepending step: validate that
`urlparse` finds a scheme and a netloc, and rewrite a leading
`"http://"` to `"https://"` (via `str.replace(..., 1)`) when the parsed
scheme is `http`. -/
def ensure_https (url : List Char) : Option (List Char) :=
  -- Validate
  if (urlparse_scheme_netloc url).1 = [] ∨ (urlparse_scheme_netloc url).2 = [] then none
  -- Ensure https
  else if (urlparse_scheme_netloc url).1 = ['h', 't', 't', 'p'] then
    some (replaceFirst httpMarker httpsMarker url)
  else some url

/-- `SEOScanner._normalize_url` (src/seo_scanner.py): prepend
`"https://"` when the URL starts with neither `"http://"` nor
`"https://"`, then validate and force the `https` scheme
(`ensure_https`). -/
def normalize_url (url : List Char) : Option (List Char) :=
  -- Add schema if missing
  ensure_https
    (if ¬ (httpMarker.isPrefixOf url ∨ httpsMarker.isPrefixOf url)
     then httpsMarker ++ url else url)

/-- `SEOScanner._identify_issues` (src/seo_scanner.py): bucket SEO issues
by severity. -/
def identify_issues (metadata : Metadata) (technical : Technical)
    (content : Content) (images : Images) : Issues :=
  let critical : List String :=
    (if ¬ pyTruthyStr metadata.title then ["Missing page title"] else []) ++
    (if ¬ technical.has_ssl then ["No HTTPS encryption"] else []) ++
    (if technical.http_status ≠ 200 then
      ["HTTP status: " ++ toString technical.http_status] else [])
  let high : List String :=
    (if ¬ pyTruthyStr metadata.meta_description then ["Missing meta description"] else []) ++
    (if metadata.h1_tags = [] then ["No H1 heading found"]
     else if metadata.h1_tags.length > 1 then
       ["Multiple H1 tags (" ++ toString metadata.h1_tags.length ++ ")"]
     else []) ++
    (if content.word_count < 300 then ["Thin content (< 300 words)"] else [])
  let medium : List String :=
    (match metadata.title with
     | some t => if t ≠ "" ∧ t.length > 60 then ["Title tag too long (> 60 chars)"] else []
     | none => []) ++
    (match metadata.meta_description with
     | some d => if d ≠ "" ∧ d.length > 160 then ["Meta description too long (> 160 chars)"] else []
     | none => []) ++
    (if technical.load_time_ms > 3000 then
      ["Slow page load (" ++ toString technical.load_time_ms ++ "ms)"] else []) ++
    (if technical.page_size_kb > 2000 then
      ["Large page size (" ++ toString technical.page_size_kb ++ "KB)"] else [])
  let low : List String :=
    (if images.images_without_alt > 0 then
      [toString images.images_without_alt ++ " images missing alt text"] else []) ++
    (if ¬ technical.is_mobile_friendly then ["No viewport meta tag"] else [])
  ⟨critical, high, medium, low⟩

/-- The `technical_points` accumulator of `_calculate_scores`
(src/seo_scanner.py): sequential fixed deductions from 100, written as
one arithmetic expression. -/
def technical_points (technical : Technical) : Int :=
  100 - (if ¬ technical.has_ssl then 30 else 0)
      - (if technical.http_status ≠ 200 then 25 else 0)
      - (if technical.load_time_ms > 3000 then 15 else 0)
      - (if ¬ technical.is_mobile_friendly then 10 else 0)

/-- The `content_points` accumulator of `_calculate_scores`. -/
def content_points (metadata : Metadata) (content : Content) : Int :=
  100 - (if ¬ pyTruthyStr metadata.title then 25 else 0)
      - (if ¬ pyTruthyStr metadata.meta_description then 20 else 0)
      - (if metadata.h1_tags = [] then 20
         else if metadata.h1_tags.length > 1 then 10 else 0)
      - (if content.word_count < 300 then 25 else 0)

/-- The `perf_points` accumulator of `_calculate_scores`. -/
def perf_points (technical : Technical) : Int :=
  let load_time := technical.load_time_ms
  let page_size := technical.page_size_kb
  100 - (if load_time > 5000 then 50
         else if load_time > 3000 then 30
         else if load_time > 1000 then 15 else 0)
      - (if page_size > 3000 then 30
         else if page_size > 2000 then 20
         else if page_size > 1000 then 10 else 0)

/-- The `access_points` accumulator of `_calculate_scores`. -/
def access_points (metadata : Metadata) (images : Images) : Int :=
  100 - (if images.images_without_alt > 0 then
           min 40 ((images.images_without_alt : Int) * 5) else 0)
      - (if metadata.h1_tags = [] then 20 else 0)

/-! ### Exact binary64 model of the overall-score arithmetic

CPython evaluates `technical_score * 0.35 + content_score * 0.35 +
performance_score * 0.20 + accessibility_score * 0.10` in IEEE-754
binary64 (left-associated additions).  The weight literals are the
doubles nearest 0.35, 0.20, 0.10: odd multiples of `2 ^ -54`, `2 ^ -55`
and `2 ^ -56` respectively.  A category score is an integer in
[0, 100], so every intermediate value is a non-negative multiple of
`2 ^ -56` below `2 ^ 7`; we represent such a value by the integer
`2 ^ 56 * value`.  Each multiplication/addition result is rounded to 53
significant bits, nearest, ties to even — `roundScaled` below; results
whose scaled representation is below `2 ^ 52` are exactly
representable and kept as they are. -/

/-- Fuel-bounded binary logarithm (structural recursion so that `decide`
can evaluate it in the kernel). -/
def log2fuel : Nat → Nat → Nat
  | 0, _ => 0
  | f + 1, n => if 2 ≤ n then log2fuel f (n / 2) + 1 else 0

/-- `⌊log₂ v⌋` for positive `v < 2 ^ 64` (64 units of fuel suffice). -/
def ilog2 (v : Int) : Nat := log2fuel 64 v.toNat

/-- Round the scaled value `v` (representing `v * 2 ^ -56`) to 53
significant bits, nearest, ties to even.  Values below `2 ^ 52` (in
particular 0) are exact. -/
def roundScaled (v : Int) : Int :=
  if v ≤ 0 then v
  else if ilog2 v < 52 then v
  else
    let g : Int := 2 ^ (ilog2 v - 52)
    let q := v / g
    let r := v % g
    let m :=
      if 2 * r < g then q
      else if g < 2 * r then q + 1
      else if q % 2 = 0 then q else q + 1
    m * g

/-- The binary64 double nearest `num / den`, for a value in [2^-4, 1):
round `num / den * 2 ^ (52 + ne)` (an integer plus a fraction, `ne` the
number of leading zero bits after the binary point) to the nearest
integer, ties to even, then rescale to the `2 ^ 56` grid. -/
def roundWeight (num den ne : Nat) : Int :=
  let shifted := num * 2 ^ (52 + ne)
  let q := shifted / den
  let r := shifted % den
  let m :=
    if 2 * r < den then q
    else if den < 2 * r then q + 1
    else if q % 2 = 0 then q else q + 1
  (m : Int) * 2 ^ (4 - ne)

/-- The double `0.35` (scaled by `2 ^ 56`). -/
def w035 : Int := roundWeight 35 100 2

/-- The double `0.20` (scaled by `2 ^ 56`). -/
def w020 : Int := roundWeight 20 100 3

/-- The double `0.10` (scaled by `2 ^ 56`). -/
def w010 : Int := roundWeight 10 100 4

/-- Binary64 product of an integer score and a scaled weight. -/
def fmulScaled (x w : Int) : Int := roundScaled (x * w)

/-- Binary64 sum of two scaled values. -/
def faddScaled (a b : Int) : Int := roundScaled (a + b)

/-- The scaled binary64 value of `t*0.35 + c*0.35 + p*0.20 + a*0.10`
as CPython evaluates it (left-associated). -/
def floatWeightedSum (t c p a : Int) : Int :=
  faddScaled (faddScaled (faddScaled (fmulScaled t w035) (fmulScaled c w035))
    (fmulScaled p w020)) (fmulScaled a w010)

/-- `int(t*0.35 + c*0.35 + p*0.20 + a*0.10)` in CPython: floor of the
non-negative binary64 value. -/
def overall_float (t c p a : Int) : Int := floatWeightedSum t c p a / 2 ^ 56

/-- The values `max 0 (technical_points _)` can take: 100 minus a subset
sum of the deduction set {30, 25, 15, 10}. -/
def techGrid : List Int := [20, 30, 35, 45, 50, 55, 60, 65, 70, 75, 85, 90, 100]

/-- The values `max 0 (content_points _ _)` can take: 100 minus a sum of
deductions from {25}, {20}, {20|10|0}, {25}. -/
def contGrid : List Int := [10, 20, 30, 35, 40, 45, 50, 55, 60, 65, 70, 75, 80, 90, 100]

/-- The values `max 0 (perf_points _)` can take: 100 minus a sum of
deductions from {50|30|15|0} and {30|20|10|0}. -/
def perfGrid : List Int := [20, 30, 40, 50, 55, 60, 65, 70, 75, 80, 85, 90, 100]

/-- The values `max 0 (access_points _ _)` can take: 100 minus
`min 40 (5 * n)` (n ≥ 1) or 0, minus 20 or 0 — the multiples of 5 in
[40, 100]. -/
def accGrid : List Int := [40, 45, 50, 55, 60, 65, 70, 75, 80, 85, 90, 95, 100]

/-- `SEOScanner._calculate_scores` (src/seo_scanner.py): start each
category at 100, subtract fixed deductions, clamp at zero with
`max(0, ·)`, then weighted-average the four category scores into the
overall score (weights 0.35, 0.35, 0.20, 0.10 as binary64 doubles;
`int()` of the non-negative float result is modelled by
`overall_float`).  The `issues` argument is taken but, as in the
source, unused. -/
def calculate_scores (metadata : Metadata) (technical : Technical)
    (content : Content) (images : Images) (_issues : Issues) : Scores :=
  let technical_score := max 0 (technical_points technical)
  let content_score := max 0 (content_points metadata content)
  let performance_score := max 0 (perf_points technical)
  let accessibility_score := max 0 (access_points metadata images)
  -- Overall score (weighted average, binary64 arithmetic)
  let overall_score : Int :=
    overall_float technical_score content_score performance_score accessibility_score
  { overall_score := overall_score
    technical_score := technical_score
    content_score := content_score
    performance_score := performance_score
    accessibility_score := accessibility_score }

/-! ## Page analysis modules (`SEOScanner`) -/

/-- Result of `_analyze_links`. -/
structure Links where
  link_count : Nat
  internal_links : Nat
  external_links : Nat
deriving Repr, DecidableEq

/-- Result of `_extract_structured_data`: the list of JSON-LD blocks is
abstracted to its length. -/
structure StructuredData where
  json_ld_count : Nat
  has_schema : Bool
deriving Repr, DecidableEq

/-- `SEOScanner._extract_metadata` (src/seo_scanner.py).  The `url`
argument is taken but, as in the source, unused. -/
def extract_metadata (soup : Soup) (_url : List Char) : Metadata :=
  let title_tag := findTag "title" soup
  let title := title_tag.map (fun n => pyStrip (nodeGetText n))
  let meta_desc := findTagAttr "meta" "name" "description" soup
  let description := meta_desc.map (fun n => pyStrip ((attrGet n.attrsOf "content").getD ""))
  let h1_tags := (findAllTag "h1" soup).map (fun n => pyStrip (nodeGetText n))
  let canonical := findTagAttr "link" "rel" "canonical" soup
  let canonical_url := canonical.bind (fun n => attrGet n.attrsOf "href")
  let robots_meta := findTagAttr "meta" "name" "robots" soup
  let robots := robots_meta.map (fun n => pyStrip ((attrGet n.attrsOf "content").getD ""))
  { title := title
    meta_description := description
    h1_tags := h1_tags
    canonical_url := canonical_url
    robots_meta := robots }

/-- `SEOScanner._analyze_technical` (src/seo_scanner.py).  The page size
is the UTF-8 byte length divided by 1024 (`int()` of the non-negative
quotient is integer division); the mobile check is a substring search
for `"viewport"` in the lowercased HTML. -/
def analyze_technical (url : List Char) (http_status : Nat) (html : String)
    (load_time : Nat) : Technical :=
  let has_ssl := (urlparse_scheme_netloc url).1 = ['h', 't', 't', 'p', 's']
  let page_size_kb := html.utf8ByteSize / 1024
  let has_viewport := containsSub (html.toList.map Char.toLower) "viewport".toList
  { http_status := http_status
    has_ssl := has_ssl
    page_size_kb := page_size_kb
    load_time_ms := load_time
    is_mobile_friendly := has_viewport }

/-- `SEOScanner._analyze_content` (src/seo_scanner.py).  The
`decompose()` loop mutates the parsed document in place, so the
function returns the pruned soup along with its result and the caller
continues with the pruned soup.  The word count of
`get_text(separator=' ', strip=True).split()` is the total number of
whitespace-separated tokens over all remaining text fragments. -/
def analyze_content (soup : Soup) : Content × Soup :=
  -- Remove script and style elements
  let soup := removeTagsNodes ["script", "style", "noscript"] soup
  let word_count := ((nodesTexts soup).map pyWords).flatten.length
  let headings : HeadingCounts :=
    { h1 := (findAllTag "h1" soup).length
      h2 := (findAllTag "h2" soup).length
      h3 := (findAllTag "h3" soup).length
      h4 := (findAllTag "h4" soup).length
      h5 := (findAllTag "h5" soup).length
      h6 := (findAllTag "h6" soup).length }
  ({ word_count := word_count, heading_counts := headings }, soup)

/-- The large-image check of `_analyze_images`: both dimension
attributes present and truthy, then `int(width) > 2000 or
int(height) > 2000` with short-circuiting; a `ValueError` from `int()`
is swallowed by the `try/except`, leaving the image uncounted. -/
def imgIsLarge (attrs : List (String × String)) : Bool :=
  match attrGet attrs "width", attrGet attrs "height" with
  | some w, some h =>
    if w = "" ∨ h = "" then false
    else
      match pyParseInt w.toList with
      | none => false
      | some wi =>
        if wi > 2000 then true
        else
          match pyParseInt h.toList with
          | none => false
          | some hi => hi > 2000
  | _, _ => false

/-- `SEOScanner._analyze_images` (src/seo_scanner.py); the loop counters
are modelled by `filter`/`length`.  The `base_url` argument is taken
but, as in the source, unused. -/
def analyze_images (soup : Soup) (_base_url : List Char) : Images :=
  let images := findAllTag "img" soup
  { image_count := images.length
    images_without_alt :=
      (images.filter (fun img => ¬ pyTruthyStr (attrGet img.attrsOf "alt"))).length
    potentially_large_images :=
      (images.filter (fun img => imgIsLarge img.attrsOf)).length }

/-- The netloc of `urljoin(base_url, href)`: an href with its own scheme
or a protocol-relative `"//"` href carries its own (possibly empty)
netloc; anything else stays on the base domain. -/
def urljoin_netloc (base_netloc : List Char) (href : List Char) : List Char :=
  if (urlparse_scheme_netloc href).1 ≠ [] ∨ ['/', '/'].isPrefixOf href
  then (urlparse_scheme_netloc href).2
  else base_netloc

/-- The skip condition of the `_analyze_links` loop: anchors and
`javascript:` pseudo-links. -/
def hrefSkip (href : List Char) : Bool :=
  ['#'].isPrefixOf href ∨ "javascript:".toList.isPrefixOf href

/-- `SEOScanner._analyze_links` (src/seo_scanner.py): count `<a>`
elements carrying an `href` attribute; classify the non-skipped ones as
internal/external by comparing the joined URL's netloc with the base
netloc. -/
def analyze_links (soup : Soup) (base_url : List Char) : Links :=
  let links := findAllNodes (fun t a => t = "a" ∧ (attrGet a "href").isSome) soup
  let base_domain := (urlparse_scheme_netloc base_url).2
  let kept := links.filter (fun n => ¬ hrefSkip ((attrGet n.attrsOf "href").getD "").toList)
  let internal := kept.filter (fun n =>
    urljoin_netloc base_domain ((attrGet n.attrsOf "href").getD "").toList = base_domain)
  { link_count := links.length
    internal_links := internal.length
    external_links := kept.length - internal.length }

/-- `SEOScanner._extract_structured_data` (src/seo_scanner.py): JSON-LD
script blocks whose body `json.loads` accepts; the external JSON parser
is abstracted to the environment's success predicate on the script
text.  (The `TypeError` CPython would raise on a childless script block
is not modelled: `scan_url` only calls this after `_analyze_content`
has removed every `script` element, so no block is ever inspected.) -/
def extract_structured_data (jsonOk : String → Bool) (soup : Soup) : StructuredData :=
  let scripts :=
    findAllNodes (fun t a => t = "script" ∧ attrGet a "type" = some "application/ld+json") soup
  let parsed := scripts.filter (fun n => jsonOk (nodeGetText n))
  { json_ld_count := parsed.length
    has_schema := parsed.length > 0 }

/-! ## The `scan_url` pipeline

`scan_url` interleaves pure analysis with external calls (Supabase
reads/writes, the HTTP fetch, the HTML parser).  Each external call is
an `Except String` value in the scan environment: `.error msg` models
the call raising a Python exception with message `msg`.  The relevant
Supabase state (the user profile and the `scans` table) is threaded
explicitly.  The analysis stages additionally record a `Step` trace so
the pipeline order is observable. -/

/-- The analysis stages of a scan, for the pipeline-order trace. -/
inductive Step where
  | httpGet
  | htmlParse
  | fieldExtraction
  | severityBucketing
  | ruleDeductions
  | weightedSum
deriving Repr, DecidableEq

/-- A successful HTTP response, as read by `_fetch_page`: the numeric
`Content-Length` header when present, the body text, the status code
and the measured load time. -/
structure FetchResp where
  contentLengthHdr : Option Nat
  body : String
  status : Nat
  loadTimeMs : Nat
deriving Repr

/-- The full analysis payload merged into the scan record on
completion. -/
structure ScanData where
  metadata : Metadata
  technical : Technical
  content : Content
  images : Images
  links : Links
  structured : StructuredData
  issues : Issues
  scores : Scores
deriving Repr, DecidableEq

/-- A row of the `scans` table (the fields the scanner writes;
`completed_at_set` records whether a completion timestamp was
written). -/
structure ScanRecord where
  url : List Char
  domain : List Char
  status : String
  error_message : Option String
  completed_at_set : Bool
  data : Option ScanData
deriving Repr, DecidableEq

/-- The Supabase state visible to `scan_url`: the caller's profile row
and the `scans` table. -/
structure DB where
  profile_exists : Bool
  monthly_scans_used : Nat
  monthly_scan_limit : Nat
  scans : List (String × ScanRecord)
deriving Repr, DecidableEq

/-- Outcome of each external call made during a scan, plus the two
opaque library functions (HTML parsing and JSON validation). -/
structure ScanEnv where
  parse : String → Soup
  jsonOk : String → Bool
  limits_read : Except String Unit
  create_record : Except String String
  update_status : Except String Unit
  fetch : Except String FetchResp
  final_update : Except String Unit
  mark_failed : Except String Unit
  counter_update : Except String Unit

deriving instance DecidableEq for Except

/-- Result of `scan_url`: `.error msg` models an uncaught Python
exception propagating to the caller; `.ok v` models `return v`. -/
structure ScanOutcome where
  result : Except String (Option String)
  db : DB
  steps : List Step
deriving Repr, DecidableEq

/-- Update the fields of every `scans` row with the given id
(`.eq('id', scan_id)`). -/
def DB.setScan (db : DB) (scan_id : String) (f : ScanRecord → ScanRecord) : DB :=
  { db with scans := db.scans.map (fun kv => if kv.1 = scan_id then (kv.1, f kv.2) else kv) }

/-- First `scans` row with the given id. -/
def DB.findScan (db : DB) (scan_id : String) : Option ScanRecord :=
  (db.scans.find? (fun kv => kv.1 = scan_id)).map (·.2)

/-- `_create_scan_record`'s insert: a fresh `pending` row (insertion is
modelled by prepending, so the new row is the first with its id). -/
def DB.insertScan (db : DB) (scan_id : String) (url domain : List Char) : DB :=
  { db with scans :=
      (scan_id,
        { url := url, domain := domain, status := "pending",
          error_message := none, completed_at_set := false, data := none }) :: db.scans }

/-- `SEOScanner._check_scan_limits` (src/seo_scanner.py): `False` when
the profile read raises or finds no row, otherwise
`monthly_scans_used < monthly_scan_limit`. -/
def check_scan_limits (env : ScanEnv) (db : DB) : Bool :=
  match env.limits_read with
  | .error _ => false
  | .ok _ =>
    if ¬ db.profile_exists then false
    else decide (db.monthly_scans_used < db.monthly_scan_limit)

/-- `MAX_PAGE_SIZE = 10 * 1024 * 1024` (src/seo_scanner.py). -/
def MAX_PAGE_SIZE : Nat := 10 * 1024 * 1024

/-- `SEOScanner._fetch_page` (src/seo_scanner.py): a
`requests.RequestException` yields `(None, 0, 0)`; a response whose
`Content-Length` header exceeds `MAX_PAGE_SIZE` yields no body; any
other response is read in full. -/
def fetch_page (env : ScanEnv) : Option String × Nat × Nat :=
  match env.fetch with
  | .error _ => (none, 0, 0)
  | .ok r =>
    match r.contentLengthHdr with
    | some n =>
      if n > MAX_PAGE_SIZE then (none, r.status, r.loadTimeMs)
      else (some r.body, r.status, r.loadTimeMs)
    | none => (some r.body, r.status, r.loadTimeMs)

/-- The row update of `_update_scan_status(scan_id, 'processing')`. -/
def processingUpdate : ScanRecord → ScanRecord :=
  fun r => { r with status := "processing" }

/-- The row update of `_mark_scan_failed`: status `failed`, the error
message, and a completion timestamp. -/
def failedUpdate (msg : String) : ScanRecord → ScanRecord :=
  fun r => { r with status := "failed", error_message := some msg, completed_at_set := true }

/-- The row update of the final `scans` write of a completed scan. -/
def completedUpdate (d : ScanData) : ScanRecord → ScanRecord :=
  fun r => { r with status := "completed", completed_at_set := true, data := some d }

/-- `SEOScanner._mark_scan_failed` (src/seo_scanner.py), state effect
on success. -/
def mark_scan_failed (db : DB) (scan_id : String) (msg : String) : DB :=
  db.setScan scan_id (failedUpdate msg)

/-- The analysis half of the `scan_url` `try` block (src/seo_scanner.py
lines 85–112): parse, the seven analysis calls in source order, and the
`scan_data` payload they assemble.  `_analyze_content` prunes the soup
in place, so `_analyze_images`, `_analyze_links` and
`_extract_structured_data` all receive the pruned soup, while
`_extract_metadata` already ran on the original. -/
def scan_data_of (env : ScanEnv) (url : List Char) (html : String)
    (http_status load_time : Nat) : ScanData :=
  let soup := env.parse html
  let metadata := extract_metadata soup url
  let technical := analyze_technical url http_status html load_time
  let content_soup := analyze_content soup
  let images := analyze_images content_soup.2 url
  let links := analyze_links content_soup.2 url
  let structured := extract_structured_data env.jsonOk content_soup.2
  let issues := identify_issues metadata technical content_soup.1 images
  let scores := calculate_scores metadata technical content_soup.1 images issues
  { metadata := metadata, technical := technical, content := content_soup.1,
    images := images, links := links, structured := structured,
    issues := issues, scores := scores }

/-- `SEOScanner._increment_scan_counter` (src/seo_scanner.py): its
read-and-write pair sits in its own `try/except`, so a raising call
leaves the counter unchanged and is swallowed. -/
def increment_scan_counter (env : ScanEnv) (db : DB) : DB :=
  match env.counter_update with
  | .error _ => db
  | .ok _ => { db with monthly_scans_used := db.monthly_scans_used + 1 }

/-- The `except Exception` handler of `scan_url`: mark the scan failed
with the exception's message and return `None`; if the marking update
itself raises, that second exception propagates. -/
def scan_handle_error (env : ScanEnv) (db : DB) (scan_id : String) (msg : String)
    (steps : List Step) : ScanOutcome :=
  match env.mark_failed with
  | .error e2 => ⟨.error e2, db, steps⟩
  | .ok _ => ⟨.ok none, mark_scan_failed db scan_id msg, steps⟩

/-- The `try` block of `scan_url` (src/seo_scanner.py lines 72–126):
status update, fetch, parse, the analysis stages in source order, the
final record update and the counter increment; any raise inside the
block lands in `scan_handle_error`.  A raise from the direct
`_mark_scan_failed` call on a fetch failure reaches the handler, whose
own `_mark_scan_failed` call raises again and propagates. -/
def scan_try (env : ScanEnv) (db : DB) (url : List Char) (scan_id : String) : ScanOutcome :=
  match env.update_status with
  | .error e => scan_handle_error env db scan_id e []
  | .ok _ =>
  let db := db.setScan scan_id processingUpdate
  match fetch_page env with
  | (html_content, http_status, load_time) =>
  if html_content = none ∨ html_content = some "" then
    -- `if not html_content:` (`None` and the empty body are both falsy)
    match env.mark_failed with
    | .error e => ⟨.error e, db, [Step.httpGet]⟩
    | .ok _ =>
      ⟨.ok none,
        mark_scan_failed db scan_id ("Failed to fetch page: HTTP " ++ toString http_status),
        [Step.httpGet]⟩
  else
    let html := html_content.getD ""
    let steps := [Step.httpGet, Step.htmlParse, Step.fieldExtraction,
      Step.severityBucketing, Step.ruleDeductions, Step.weightedSum]
    match env.final_update with
    | .error e => scan_handle_error env db scan_id e steps
    | .ok _ =>
      let db := db.setScan scan_id
        (completedUpdate (scan_data_of env url html http_status load_time))
      let db := increment_scan_counter env db
      ⟨.ok (some scan_id), db, steps⟩

/-- `SEOScanner.scan_url` (src/seo_scanner.py): URL validation, the
scan-limit check, record creation (whose raise is re-raised by
`_create_scan_record` and escapes, being outside the `try`), then the
`try` block. -/
def scan_url (env : ScanEnv) (db : DB) (url : List Char) : ScanOutcome :=
  match normalize_url url with
  | none => ⟨.ok none, db, []⟩
  | some url =>
    if ¬ check_scan_limits env db then ⟨.ok none, db, []⟩
    else
      match env.create_record with
      | .error e => ⟨.error e, db, []⟩
      | .ok scan_id =>
        let db := db.insertScan scan_id url (urlparse_scheme_netloc url).2
        scan_try env db url scan_id

/-! ### Concrete scan environments for evaluation

A minimal profile row, a parser returning an empty document, and an
environment builder whose four interesting call outcomes are
parameters; used to evaluate `scan_url` at explicit inputs. -/

/-- A profile with no scans used and a limit of 5, and an empty `scans`
table. -/
def demoDB : DB :=
  { profile_exists := true, monthly_scans_used := 0, monthly_scan_limit := 5, scans := [] }

/-- A concrete scan environment: the record-creation, status-update,
fetch and final-update outcomes are parameters; the parser returns an
empty document, JSON never parses, and the remaining calls succeed. -/
def demoEnv (create : Except String String) (upd : Except String Unit)
    (fetch : Except String FetchResp) (fin : Except String Unit) : ScanEnv :=
  { parse := fun _ => [], jsonOk := fun _ => false,
    limits_read := .ok (), create_record := create,
    update_status := upd, fetch := fetch,
    final_update := fin, mark_failed := .ok (), counter_update := .ok () }

/-- The URL used for concrete evaluations. -/
def demoUrl : List Char := "example.com".toList

/-- The normalized form of `demoUrl`: the scheme gets prepended. -/
def demoNormUrl : List Char := "https://example.com".toList

/-- A document whose only image and only link sit inside a `script`
element, plus a title outside it. -/
def demoSoup : Soup :=
  [Node.elem "script" []
     [Node.elem "img" [("src", "x.png")] [], Node.elem "a" [("href", "/y")] []],
   Node.elem "title" [] [Node.text "Demo"]]

end NexusSEO.SEOScanner

namespace NexusSEO.AIService

/-! ## `AIService` (src/ai_service.py): credits and AI operations

The Gemini model call and the external JSON parser are supplied by an
environment; the relevant Supabase state (profile row, credit ledger,
AI-usage log) is threaded explicitly. -/

/-- `CREDIT_COSTS` (src/ai_service.py): fixed credit cost per
operation. -/
def CREDIT_COSTS : String → Option Nat
  | "seo_audit" => some 100
  | "keyword_research" => some 50
  | "content_gap" => some 75
  | "roadmap" => some 120
  | "quick_suggestions" => some 25
  | "competitor_analysis" => some 150
  | _ => none

/-- A row of the `credit_transactions` ledger (`txn_type` is the
`type` column). -/
structure CreditTxn where
  user_id : String
  txn_type : String
  amount : Int
  balance_after : Int
  reference_id : Option String
  reference_type : String
  description : String
deriving Repr, DecidableEq

/-- A row of the `ai_usage` log (the token/latency columns are
irrelevant to the claims and elided). -/
structure AIUsageLog where
  user_id : String
  operation_type : String
  credits_consumed : Nat
  success : Bool
  error_message : Option String
deriving Repr, DecidableEq

/-- The Supabase state visible to `AIService`. -/
structure AIDB where
  profile_exists : Bool
  credits_balance : Int
  total_credits_used : Int
  credit_transactions : List CreditTxn
  ai_usage : List AIUsageLog
deriving Repr, DecidableEq

/-- The external calls of one AI operation: the Gemini generation
(`.error` models a raised exception), `json.loads` (success gives an
abstract canonical value, failure the decode-error message), and the
outcome of each Supabase call inside `check_credits` (the profile
read) and `deduct_credits` (the profile read, the balance update, and
the ledger insert) — any of which can raise. -/
structure AIEnv where
  generate : Except String String
  jsonParse : String → Except String String
  check_read : Except String Unit
  deduct_read : Except String Unit
  deduct_update : Except String Unit
  deduct_insert : Except String Unit

/-- `AIService.check_credits` (src/ai_service.py): `(False, 0)` when
the profile read raises or finds no row, else whether the balance
covers `CREDIT_COSTS.get(operation_type, 0)`, together with the
balance. -/
def check_credits (env : AIEnv) (db : AIDB) (operation_type : String) : Bool × Int :=
  match env.check_read with
  | .error _ => (false, 0)
  | .ok _ =>
    if ¬ db.profile_exists then (false, 0)
    else (decide (db.credits_balance ≥ ((CREDIT_COSTS operation_type).getD 0 : Nat)),
          db.credits_balance)

/-- `AIService.deduct_credits` (src/ai_service.py): the whole body sits
in one `try`, so a raising Supabase call is caught and yields `False`,
leaving behind exactly the writes that had already executed.  In order:
the profile read raises (no writes; a missing row also makes
`.single()` raise) — then refuse when the balance is below `amount` —
then the profile update raises (no writes) — the update commits the
decremented balance and `total_credits_used + amount` (the effect the
source's `rpc('increment', {'x': amount})` value requests) — then the
ledger insert raises (`False` with the update already applied) — else
append the ledger row and return `True`.  The unused `tokens_used`
argument is kept for shape. -/
def deduct_credits (env : AIEnv) (db : AIDB) (user_id : String) (amount : Int)
    (operation_type : String) (scan_id : Option String) (_tokens_used : Nat) :
    Bool × AIDB :=
  match env.deduct_read with
  | .error _ => (false, db)
  | .ok _ =>
    if ¬ db.profile_exists then (false, db)
    else if db.credits_balance < amount then (false, db)
    else
      let new_balance := db.credits_balance - amount
      match env.deduct_update with
      | .error _ => (false, db)
      | .ok _ =>
        let db1 := { db with
          credits_balance := new_balance
          total_credits_used := db.total_credits_used + amount }
        match env.deduct_insert with
        | .error _ => (false, db1)
        | .ok _ =>
          (true,
            { db1 with
                credit_transactions := db1.credit_transactions ++
                  [{ user_id := user_id
                     txn_type := "credit_usage"
                     amount := -amount
                     balance_after := new_balance
                     reference_id := scan_id
                     reference_type := "ai_operation"
                     description := "AI credits used for " ++ operation_type }] })

/-- `AIService._log_ai_usage` (src/ai_service.py), reduced to the
columns the claims mention; its own `try/except` swallows errors. -/
def log_ai_usage (db : AIDB) (user_id operation : String) (credits_used : Nat)
    (success : Bool) (error_message : Option String) : AIDB :=
  { db with ai_usage := db.ai_usage ++
      [{ user_id := user_id, operation_type := operation,
         credits_consumed := credits_used, success := success,
         error_message := error_message }] }

/-- The structured report `_parse_audit_response` builds. -/
structure AuditReport where
  full_text : String
  sections : List (String × String)
deriving Repr, DecidableEq

/-- The section-splitting loop of `_parse_audit_response`: a line
starting `"## "` opens a section named by the line with every `"##"`
removed and stripped; other lines accumulate into the current section.
(The Python dict is modelled as an assoc list in section order.) -/
def parse_sections : List String → Option String → List String → List (String × String)
  | [], cur, content =>
    match cur with
    | some name => [(name, String.intercalate "\n" content.reverse)]
    | none => []
  | line :: rest, cur, content =>
    if line.startsWith "## " then
      match cur with
      | some name =>
        (name, String.intercalate "\n" content.reverse) ::
          parse_sections rest (some (pyStrip (line.replace "##" ""))) []
      | none => parse_sections rest (some (pyStrip (line.replace "##" ""))) []
    else parse_sections rest cur (line :: content)

/-- `AIService._parse_audit_response` (src/ai_service.py). -/
def parse_audit_response (response_text : String) : AuditReport :=
  { full_text := response_text
    sections := parse_sections (response_text.splitOn "\n") none [] }

/-- The fence-stripping of `_extract_json_from_response`. -/
def strip_code_fences (text : String) : String :=
  let t := pyStrip text
  let t := if t.startsWith "```json" then t.drop 7 else t
  let t := if t.startsWith "```" then t.drop 3 else t
  let t := if t.endsWith "```" then t.dropRight 3 else t
  pyStrip t

/-- Result of `_extract_json_from_response`: a parsed value, or the
`{'raw_text': ..., 'parse_error': ...}` fallback dict. -/
inductive JsonResult where
  | parsed (v : String)
  | fallback (raw : String) (err : String)
deriving Repr, DecidableEq

/-- `AIService._extract_json_from_response` (src/ai_service.py). -/
def extract_json_from_response (jsonParse : String → Except String String)
    (text : String) : JsonResult :=
  let t := strip_code_fences text
  match jsonParse t with
  | .ok v => .parsed v
  | .error e => .fallback t e

/-- `AIService.generate_seo_audit` (src/ai_service.py).  Returns the
report (or `None`), the updated state, and whether the Gemini model was
invoked.  The prompt inputs are irrelevant to the control flow and kept
only for shape. -/
def generate_seo_audit (env : AIEnv) (db : AIDB) (user_id scan_id : String)
    (_user_tier : String) : Option AuditReport × AIDB × Bool :=
  let operation := "seo_audit"
  -- Check credits
  if ¬ (check_credits env db operation).1 then (none, db, false)
  else
    match env.generate with
    | .error e =>
      -- Log failed attempt
      (none, log_ai_usage db user_id operation 0 false (some e), true)
    | .ok text =>
      let audit_report := parse_audit_response text
      -- Deduct credits; a `False` result is only logged, never acted on
      let credits_used := (CREDIT_COSTS operation).getD 0
      let db := (deduct_credits env db user_id (credits_used : Nat) operation (some scan_id) 0).2
      let db := log_ai_usage db user_id operation credits_used true none
      (some audit_report, db, true)

/-- `AIService.generate_keyword_research` (src/ai_service.py). -/
def generate_keyword_research (env : AIEnv) (db : AIDB) (user_id : String)
    (_primary_keyword _industry _target_audience : String) :
    Option JsonResult × AIDB × Bool :=
  let operation := "keyword_research"
  if ¬ (check_credits env db operation).1 then (none, db, false)
  else
    match env.generate with
    | .error e =>
      (none, log_ai_usage db user_id operation 0 false (some e), true)
    | .ok text =>
      let keyword_data := extract_json_from_response env.jsonParse text
      let credits_used := (CREDIT_COSTS operation).getD 0
      let db := (deduct_credits env db user_id (credits_used : Nat) operation none 0).2
      let db := log_ai_usage db user_id operation credits_used true none
      (some keyword_data, db, true)

/-- `AIService.generate_seo_roadmap` (src/ai_service.py). -/
def generate_seo_roadmap (env : AIEnv) (db : AIDB) (user_id scan_id : String)
    (_business_goals : String) : Option AuditReport × AIDB × Bool :=
  let operation := "roadmap"
  if ¬ (check_credits env db operation).1 then (none, db, false)
  else
    match env.generate with
    | .error e =>
      (none, log_ai_usage db user_id operation 0 false (some e), true)
    | .ok text =>
      let roadmap_data := parse_audit_response text
      let credits_used := (CREDIT_COSTS operation).getD 0
      let db := (deduct_credits env db user_id (credits_used : Nat) operation (some scan_id) 0).2
      let db := log_ai_usage db user_id operation credits_used true none
      (some roadmap_data, db, true)

end NexusSEO.AIService

namespace NexusSEO

open SEOScanner

lemma technical_points_le (technical : Technical) :
    technical_points technical ≤ 100 := by
  simp only [technical_points]
  split_ifs <;> omega

lemma content_points_le (metadata : Metadata) (content : Content) :
    content_points metadata content ≤ 100 := by
  simp only [content_points]
  split_ifs <;> omega

lemma perf_points_le (technical : Technical) :
    perf_points technical ≤ 100 := by
  simp only [perf_points]
  split_ifs <;> omega

lemma access_points_le (metadata : Metadata) (images : Images) :
    access_points metadata images ≤ 100 := by
  simp only [access_points]
  split_ifs <;> omega

/-! Properties of the binary64 model: `roundScaled` perturbs a value
`v < 2 ^ (K + 1)` by at most `2 ^ (K - 53)` (half a unit in the last
place) and preserves non-negativity; the weight constants are within
`160 / 2 ^ 56` of the exact rationals; hence the whole weighted sum is
within `2 ^ 20 / (100 * 2 ^ 56)` of the exact weighted average. -/

lemma log2fuel_spec (f : Nat) : ∀ n : Nat, 1 ≤ n → n < 2 ^ f →
    2 ^ log2fuel f n ≤ n ∧ n < 2 ^ (log2fuel f n + 1) := by
  induction f with
  | zero => intro n h1 h2; omega
  | succ f ih =>
    intro n h1 h2
    rw [log2fuel]
    by_cases h : 2 ≤ n
    · rw [if_pos h]
      have hhalf := ih (n / 2) (by omega) (by
        have : 2 ^ (f + 1) = 2 ^ f * 2 := by rw [pow_succ]
        omega)
      have hp : 2 ^ (log2fuel f (n / 2) + 1) = 2 ^ log2fuel f (n / 2) * 2 := by
        rw [pow_succ]
      have hp2 : 2 ^ (log2fuel f (n / 2) + 1 + 1) = 2 ^ (log2fuel f (n / 2) + 1) * 2 := by
        rw [pow_succ]
      omega
    · rw [if_neg h]
      simp only [pow_zero, pow_one]
      omega

lemma ilog2_spec (v : Int) (h1 : 1 ≤ v) (h : v < 2 ^ 63) :
    (2 : Int) ^ ilog2 v ≤ v ∧ v < 2 ^ (ilog2 v + 1) := by
  have hn : 1 ≤ v.toNat ∧ v.toNat < 2 ^ 64 := by omega
  have hs := log2fuel_spec 64 v.toNat hn.1 hn.2
  unfold ilog2
  constructor
  · have := hs.1
    zify at this
    omega
  · have := hs.2
    zify at this
    omega

lemma roundScaled_bounds (v : Int) (h0 : 0 ≤ v) (K : Nat) (h53 : 53 ≤ K)
    (hK : K ≤ 62) (hv : v < 2 ^ (K + 1)) :
    v - 2 ^ (K - 53) ≤ roundScaled v ∧ roundScaled v ≤ v + 2 ^ (K - 53) ∧
      0 ≤ roundScaled v := by
  unfold roundScaled
  by_cases hz : v ≤ 0
  · rw [if_pos hz]
    have : (0 : Int) < 2 ^ (K - 53) := by positivity
    omega
  · rw [if_neg hz]
    have hvpos : 1 ≤ v := by omega
    have hspec := ilog2_spec v hvpos (by
      have : (2 : Int) ^ (K + 1) ≤ 2 ^ 63 := by
        apply pow_le_pow_right₀ (by norm_num)
        omega
      omega)
    by_cases hk : ilog2 v < 52
    · rw [if_pos hk]
      have : (0 : Int) < 2 ^ (K - 53) := by positivity
      omega
    · rw [if_neg hk]
      set k := ilog2 v with hkdef
      have hkK : k ≤ K := by
        by_contra hgt
        have : (2 : Int) ^ (K + 1) ≤ 2 ^ k := by
          apply pow_le_pow_right₀ (by norm_num)
          omega
        omega
      have hgpos : (0 : Int) < 2 ^ (k - 52) := by positivity
      have hdiv := Int.ediv_add_emod v (2 ^ (k - 52))
      have hmod := Int.emod_nonneg v (ne_of_gt hgpos)
      have hmodlt := Int.emod_lt_of_pos v hgpos
      have hgle : (2 : Int) ^ (k - 52) ≤ 2 ^ (K - 52) := by
        apply pow_le_pow_right₀ (by norm_num)
        omega
      have hKsplit : (2 : Int) ^ (K - 52) = 2 * 2 ^ (K - 53) := by
        rw [← pow_succ']
        congr 1
        omega
      have hq0 : 0 ≤ v / 2 ^ (k - 52) := Int.ediv_nonneg (by omega) (by positivity)
      have hqg : v / 2 ^ (k - 52) * 2 ^ (k - 52) = 2 ^ (k - 52) * (v / 2 ^ (k - 52)) :=
        mul_comm _ _
      have hq1g : (v / 2 ^ (k - 52) + 1) * 2 ^ (k - 52) =
          2 ^ (k - 52) * (v / 2 ^ (k - 52)) + 2 ^ (k - 52) := by ring
      have hi0 : 0 ≤ v / 2 ^ (k - 52) * 2 ^ (k - 52) :=
        mul_nonneg hq0 (le_of_lt hgpos)
      simp only []
      split_ifs with hc1 hc2 hc3 <;> omega

lemma w035_val : w035 = 25220157913274776 := by decide

lemma w020_val : w020 = 14411518807585588 := by decide

lemma w010_val : w010 = 7205759403792794 := by decide

lemma floatWeightedSum_err (t c p a : Int)
    (ht0 : 0 ≤ t) (ht1 : t ≤ 100) (hc0 : 0 ≤ c) (hc1 : c ≤ 100)
    (hp0 : 0 ≤ p) (hp1 : p ≤ 100) (ha0 : 0 ≤ a) (ha1 : a ≤ 100) :
    2 ^ 56 * (35 * t + 35 * c + 20 * p + 10 * a) - 2 ^ 20 ≤
        100 * floatWeightedSum t c p a ∧
      100 * floatWeightedSum t c p a ≤
        2 ^ 56 * (35 * t + 35 * c + 20 * p + 10 * a) + 2 ^ 20 ∧
      0 ≤ floatWeightedSum t c p a := by
  have hw35 := w035_val
  have hw20 := w020_val
  have hw10 := w010_val
  unfold floatWeightedSum faddScaled fmulScaled
  have h1 := roundScaled_bounds (t * w035) (by rw [hw35]; omega) 61 (by norm_num)
    (by norm_num) (by rw [hw35]; omega)
  have h2 := roundScaled_bounds (c * w035) (by rw [hw35]; omega) 61 (by norm_num)
    (by norm_num) (by rw [hw35]; omega)
  have h3 := roundScaled_bounds (p * w020) (by rw [hw20]; omega) 61 (by norm_num)
    (by norm_num) (by rw [hw20]; omega)
  have h4 := roundScaled_bounds (a * w010) (by rw [hw10]; omega) 61 (by norm_num)
    (by norm_num) (by rw [hw10]; omega)
  set m1 := roundScaled (t * w035) with hm1
  set m2 := roundScaled (c * w035) with hm2
  set m3 := roundScaled (p * w020) with hm3
  set m4 := roundScaled (a * w010) with hm4
  have h5 := roundScaled_bounds (m1 + m2) (by omega) 62 (by norm_num) (by norm_num)
    (by rw [hw35] at h1 h2; omega)
  set s1 := roundScaled (m1 + m2) with hs1
  have h6 := roundScaled_bounds (s1 + m3) (by omega) 62 (by norm_num) (by norm_num)
    (by rw [hw35] at h1 h2; rw [hw20] at h3; omega)
  set s2 := roundScaled (s1 + m3) with hs2
  have h7 := roundScaled_bounds (s2 + m4) (by omega) 62 (by norm_num) (by norm_num)
    (by rw [hw35] at h1 h2; rw [hw20] at h3; rw [hw10] at h4; omega)
  rw [hw35] at h1 h2
  rw [hw20] at h3
  rw [hw10] at h4
  omega

lemma tech_score_mem (technical : Technical) :
    max 0 (technical_points technical) ∈ techGrid := by
  simp only [technical_points, techGrid, List.mem_cons, List.not_mem_nil, or_false]
  split_ifs <;> omega

lemma cont_score_mem (metadata : Metadata) (content : Content) :
    max 0 (content_points metadata content) ∈ contGrid := by
  simp only [content_points, contGrid, List.mem_cons, List.not_mem_nil, or_false]
  split_ifs <;> omega

lemma perf_score_mem (technical : Technical) :
    max 0 (perf_points technical) ∈ perfGrid := by
  simp only [perf_points, perfGrid, List.mem_cons, List.not_mem_nil, or_false]
  split_ifs <;> omega

lemma acc_score_mem (metadata : Metadata) (images : Images) :
    max 0 (access_points metadata images) ∈ accGrid := by
  simp only [access_points, accGrid, List.mem_cons, List.not_mem_nil, or_false]
  split_ifs <;> omega

lemma diag_bound : ∀ s ∈ techGrid, s ∈ contGrid → s ∈ perfGrid → s ∈ accGrid →
    s ≤ overall_float s s s s ∧ overall_float s s s s ≤ s := by decide

lemma grid_range : (∀ s ∈ techGrid, 0 ≤ s ∧ s ≤ 100) ∧
    (∀ s ∈ contGrid, 0 ≤ s ∧ s ≤ 100) ∧ (∀ s ∈ perfGrid, 0 ≤ s ∧ s ≤ 100) ∧
    (∀ s ∈ accGrid, 0 ≤ s ∧ s ≤ 100) := by decide

lemma overall_float_between (t c p a : Int)
    (ht : t ∈ techGrid) (hc : c ∈ contGrid) (hp : p ∈ perfGrid) (ha : a ∈ accGrid) :
    min (min t c) (min p a) ≤ overall_float t c p a ∧
      overall_float t c p a ≤ max (max t c) (max p a) := by
  have hr := grid_range
  have hbt := hr.1 t ht
  have hbc := hr.2.1 c hc
  have hbp := hr.2.2.1 p hp
  have hba := hr.2.2.2 a ha
  by_cases hall : t = c ∧ c = p ∧ p = a
  · obtain ⟨rfl, rfl, rfl⟩ := hall
    have hd := diag_bound t ht hc hp ha
    unfold overall_float at hd ⊢
    omega
  · have herr := floatWeightedSum_err t c p a hbt.1 hbt.2 hbc.1 hbc.2 hbp.1 hbp.2
      hba.1 hba.2
    unfold overall_float
    omega

lemma overall_float_range (t c p a : Int)
    (ht0 : 0 ≤ t) (ht1 : t ≤ 100) (hc0 : 0 ≤ c) (hc1 : c ≤ 100)
    (hp0 : 0 ≤ p) (hp1 : p ≤ 100) (ha0 : 0 ≤ a) (ha1 : a ≤ 100) :
    0 ≤ overall_float t c p a ∧ overall_float t c p a ≤ 100 := by
  have herr := floatWeightedSum_err t c p a ht0 ht1 hc0 hc1 hp0 hp1 ha0 ha1
  unfold overall_float
  omega

/-- C1: every category score produced by `_calculate_scores`, and the
overall score, lie in the interval [0, 100]: each category starts at
100, only fixed point values are subtracted, and the result is clamped
at zero. -/
theorem C1_scores_in_range (metadata : Metadata) (technical : Technical)
    (content : Content) (images : Images) (issues : Issues) :
    (0 ≤ (calculate_scores metadata technical content images issues).technical_score ∧
      (calculate_scores metadata technical content images issues).technical_score ≤ 100) ∧
    (0 ≤ (calculate_scores metadata technical content images issues).content_score ∧
      (calculate_scores metadata technical content images issues).content_score ≤ 100) ∧
    (0 ≤ (calculate_scores metadata technical content images issues).performance_score ∧
      (calculate_scores metadata technical content images issues).performance_score ≤ 100) ∧
    (0 ≤ (calculate_scores metadata technical content images issues).accessibility_score ∧
      (calculate_scores metadata technical content images issues).accessibility_score ≤ 100) ∧
    (0 ≤ (calculate_scores metadata technical content images issues).overall_score ∧
      (calculate_scores metadata technical content images issues).overall_score ≤ 100) := by
  have h1 := technical_points_le technical
  have h2 := content_points_le metadata content
  have h3 := perf_points_le technical
  have h4 := access_points_le metadata images
  have hof := overall_float_range (max 0 (technical_points technical))
    (max 0 (content_points metadata content)) (max 0 (perf_points technical))
    (max 0 (access_points metadata images))
    (by omega) (by omega) (by omega) (by omega) (by omega) (by omega) (by omega) (by omega)
  simp only [calculate_scores]
  exact ⟨⟨by omega, by omega⟩, ⟨by omega, by omega⟩, ⟨by omega, by omega⟩,
    ⟨by omega, by omega⟩, hof⟩

/-- C5 counterexample: the overall score is NOT the floor of the exact
weighted average `(35 t + 35 c + 20 p + 10 a) / 100`.  At the reachable
category scores (85, 45, 60, 65) — no SSL issue, slow load, thin page
content, medium page size, seven images without alt text — the binary64
sum `85*0.35 + 45*0.35 + 60*0.20 + 65*0.10` evaluates to
63.99999999999999289, so `int(...)` yields 63, while the exact weighted
average is exactly 64. -/
theorem C5_counterexample_float_drift :
    (calculate_scores ⟨none, none, ["a", "b"], none, none⟩
        ⟨200, true, 1500, 4000, true⟩ ⟨500, ⟨2, 0, 0, 0, 0, 0⟩⟩ ⟨9, 7, 0⟩
        ⟨[], [], [], []⟩).technical_score = 85 ∧
    (calculate_scores ⟨none, none, ["a", "b"], none, none⟩
        ⟨200, true, 1500, 4000, true⟩ ⟨500, ⟨2, 0, 0, 0, 0, 0⟩⟩ ⟨9, 7, 0⟩
        ⟨[], [], [], []⟩).content_score = 45 ∧
    (calculate_scores ⟨none, none, ["a", "b"], none, none⟩
        ⟨200, true, 1500, 4000, true⟩ ⟨500, ⟨2, 0, 0, 0, 0, 0⟩⟩ ⟨9, 7, 0⟩
        ⟨[], [], [], []⟩).performance_score = 60 ∧
    (calculate_scores ⟨none, none, ["a", "b"], none, none⟩
        ⟨200, true, 1500, 4000, true⟩ ⟨500, ⟨2, 0, 0, 0, 0, 0⟩⟩ ⟨9, 7, 0⟩
        ⟨[], [], [], []⟩).accessibility_score = 65 ∧
    (calculate_scores ⟨none, none, ["a", "b"], none, none⟩
        ⟨200, true, 1500, 4000, true⟩ ⟨500, ⟨2, 0, 0, 0, 0, 0⟩⟩ ⟨9, 7, 0⟩
        ⟨[], [], [], []⟩).overall_score = 63 ∧
    ((85 : Int) * 35 + 45 * 35 + 60 * 20 + 65 * 10) / 100 = 64 := by decide

/-- C5 (amended): the overall score is the binary64 evaluation of the
weighted sum of the four category scores (nominal weights 35/100,
35/100, 20/100, 10/100, summing to 1, each replaced by its nearest
double), truncated by `int(...)`; because of float rounding it is not
always the floor of the exact weighted average (it can be one less),
but it still always lies between the minimum and the maximum of the
four category scores. -/
theorem C5_overall_between_min_and_max (metadata : Metadata) (technical : Technical)
    (content : Content) (images : Images) (issues : Issues) :
    (35 : Int) + 35 + 20 + 10 = 100 ∧
    (calculate_scores metadata technical content images issues).overall_score =
      overall_float
        (calculate_scores metadata technical content images issues).technical_score
        (calculate_scores metadata technical content images issues).content_score
        (calculate_scores metadata technical content images issues).performance_score
        (calculate_scores metadata technical content images issues).accessibility_score ∧
    min (min (calculate_scores metadata technical content images issues).technical_score
             (calculate_scores metadata technical content images issues).content_score)
        (min (calculate_scores metadata technical content images issues).performance_score
             (calculate_scores metadata technical content images issues).accessibility_score) ≤
      (calculate_scores metadata technical content images issues).overall_score ∧
    (calculate_scores metadata technical content images issues).overall_score ≤
      max (max (calculate_scores metadata technical content images issues).technical_score
               (calculate_scores metadata technical content images issues).content_score)
          (max (calculate_scores metadata technical content images issues).performance_score
               (calculate_scores metadata technical content images issues).accessibility_score) := by
  have hb := overall_float_between (max 0 (technical_points technical))
    (max 0 (content_points metadata content)) (max 0 (perf_points technical))
    (max 0 (access_points metadata images))
    (tech_score_mem technical) (cont_score_mem metadata content)
    (perf_score_mem technical) (acc_score_mem metadata images)
  simp only [calculate_scores]
  exact ⟨by omega, trivial, hb.1, hb.2⟩

/-! ### URL normalization (C8) -/

lemma urlparse_http_append (t : List Char) :
    urlparse_scheme_netloc (httpMarker ++ t) =
      (['h', 't', 't', 'p'], t.takeWhile (fun c => ¬ netlocEnd c)) := by
  simp +decide [urlparse_scheme_netloc, httpMarker, List.takeWhile_cons, schemeChar]

lemma urlparse_https_append (t : List Char) :
    urlparse_scheme_netloc (httpsMarker ++ t) =
      (['h', 't', 't', 'p', 's'], t.takeWhile (fun c => ¬ netlocEnd c)) := by
  simp +decide [urlparse_scheme_netloc, httpsMarker, List.takeWhile_cons, schemeChar]

lemma replaceFirst_marker (t : List Char) :
    replaceFirst httpMarker httpsMarker (httpMarker ++ t) = httpsMarker ++ t := by
  have hpre : httpMarker.isPrefixOf (httpMarker ++ t) = true :=
    List.isPrefixOf_iff_prefix.mpr (List.prefix_append _ _)
  show replaceFirst httpMarker httpsMarker ('h' :: (['t','t','p',':','/','/'] ++ t)) = _
  rw [replaceFirst, if_pos (by exact hpre)]
  simp [httpMarker]

lemma ensure_https_http (t : List Char) :
    ensure_https (httpMarker ++ t) =
      if t.takeWhile (fun c => ¬ netlocEnd c) = [] then none
      else some (httpsMarker ++ t) := by
  unfold ensure_https
  rw [urlparse_http_append]
  by_cases hn : t.takeWhile (fun c => ¬ netlocEnd c) = []
  · rw [if_pos (Or.inr hn), if_pos hn]
  · rw [if_neg (fun hor => hor.elim (fun ha => by cases ha) hn), if_pos rfl, if_neg hn,
      replaceFirst_marker]

lemma ensure_https_https (t : List Char) :
    ensure_https (httpsMarker ++ t) =
      if t.takeWhile (fun c => ¬ netlocEnd c) = [] then none
      else some (httpsMarker ++ t) := by
  unfold ensure_https
  rw [urlparse_https_append]
  by_cases hn : t.takeWhile (fun c => ¬ netlocEnd c) = []
  · rw [if_pos (Or.inr hn), if_pos hn]
  · rw [if_neg (fun hor => hor.elim (fun ha => by cases ha) hn), if_neg (by simp), if_neg hn]

lemma normalize_url_http (t : List Char) :
    normalize_url (httpMarker ++ t) =
      if t.takeWhile (fun c => ¬ netlocEnd c) = [] then none
      else some (httpsMarker ++ t) := by
  have hpre : httpMarker.isPrefixOf (httpMarker ++ t) = true :=
    List.isPrefixOf_iff_prefix.mpr (List.prefix_append _ _)
  unfold normalize_url
  rw [if_neg (by simp [hpre]), ensure_https_http]

lemma normalize_url_https (t : List Char) :
    normalize_url (httpsMarker ++ t) =
      if t.takeWhile (fun c => ¬ netlocEnd c) = [] then none
      else some (httpsMarker ++ t) := by
  have hpre : httpsMarker.isPrefixOf (httpsMarker ++ t) = true :=
    List.isPrefixOf_iff_prefix.mpr (List.prefix_append _ _)
  unfold normalize_url
  rw [if_neg (by simp [hpre]), ensure_https_https]

lemma normalize_url_other (url : List Char)
    (h : ¬ (httpMarker.isPrefixOf url ∨ httpsMarker.isPrefixOf url)) :
    normalize_url url =
      if url.takeWhile (fun c => ¬ netlocEnd c) = [] then none
      else some (httpsMarker ++ url) := by
  unfold normalize_url
  rw [if_pos h, ensure_https_https]

/-- C8: `_normalize_url` returns either `None` or a URL beginning with
`"https://"`: an input starting with neither `"http://"` nor
`"https://"` gets `"https://"` prepended, and an input beginning with
`"http://"` has that prefix rewritten to `"https://"`, so a non-`None`
result is never an `http` URL. -/
theorem C8_normalize_url_never_http (url : List Char) :
    (normalize_url url = none ∨
      ∃ r, normalize_url url = some r ∧ httpsMarker.isPrefixOf r) ∧
    (httpMarker.isPrefixOf url →
      normalize_url url = none ∨
      normalize_url url = some (httpsMarker ++ url.drop 7)) ∧
    (¬ (httpMarker.isPrefixOf url ∨ httpsMarker.isPrefixOf url) →
      normalize_url url = none ∨
      normalize_url url = some (httpsMarker ++ url)) := by
  have hself : ∀ t : List Char, httpsMarker.isPrefixOf (httpsMarker ++ t) = true :=
    fun t => List.isPrefixOf_iff_prefix.mpr (List.prefix_append _ _)
  refine ⟨?_, ?_, ?_⟩
  · by_cases h1 : httpMarker.isPrefixOf url
    · obtain ⟨t, rfl⟩ := List.isPrefixOf_iff_prefix.mp h1
      rw [normalize_url_http]
      by_cases hn : t.takeWhile (fun c => ¬ netlocEnd c) = []
      · exact Or.inl (by rw [if_pos hn])
      · exact Or.inr ⟨httpsMarker ++ t, by rw [if_neg hn], hself t⟩
    · by_cases h2 : httpsMarker.isPrefixOf url
      · obtain ⟨t, rfl⟩ := List.isPrefixOf_iff_prefix.mp h2
        rw [normalize_url_https]
        by_cases hn : t.takeWhile (fun c => ¬ netlocEnd c) = []
        · exact Or.inl (by rw [if_pos hn])
        · exact Or.inr ⟨httpsMarker ++ t, by rw [if_neg hn], hself t⟩
      · rw [normalize_url_other url (by tauto)]
        by_cases hn : url.takeWhile (fun c => ¬ netlocEnd c) = []
        · exact Or.inl (by rw [if_pos hn])
        · exact Or.inr ⟨httpsMarker ++ url, by rw [if_neg hn], hself url⟩
  · intro h1
    obtain ⟨t, rfl⟩ := List.isPrefixOf_iff_prefix.mp h1
    rw [normalize_url_http]
    have hdrop : (httpMarker ++ t).drop 7 = t := List.drop_left httpMarker t
    by_cases hn : t.takeWhile (fun c => ¬ netlocEnd c) = []
    · exact Or.inl (by rw [if_pos hn])
    · exact Or.inr (by rw [if_neg hn, hdrop])
  · intro h
    rw [normalize_url_other url h]
    by_cases hn : url.takeWhile (fun c => ¬ netlocEnd c) = []
    · exact Or.inl (by rw [if_pos hn])
    · exact Or.inr (by rw [if_neg hn])

/-- Witness for C8 at the concrete inputs `"http://x.com"` (scheme
rewritten) and `"example.com"` (scheme prepended). -/
theorem C8_normalize_url_never_http_witness :
    (httpMarker.isPrefixOf ("http://x.com".toList) = true) ∧
    (normalize_url ("http://x.com".toList) = none ∨
      normalize_url ("http://x.com".toList) =
        some (httpsMarker ++ ("http://x.com".toList).drop 7)) ∧
    (¬ (httpMarker.isPrefixOf ("example.com".toList) ∨
        httpsMarker.isPrefixOf ("example.com".toList))) ∧
    (normalize_url ("example.com".toList) = none ∨
      normalize_url ("example.com".toList) =
        some (httpsMarker ++ "example.com".toList)) :=
  ⟨by decide, (C8_normalize_url_never_http _).2.1 (by decide), by decide,
    (C8_normalize_url_never_http _).2.2 (by decide)⟩

/-! ### Scan-pipeline lemmas -/

lemma findScan_insertScan (db : DB) (sid : String) (u d : List Char) :
    (db.insertScan sid u d).findScan sid =
      some { url := u, domain := d, status := "pending",
             error_message := none, completed_at_set := false, data := none } := by
  simp [DB.insertScan, DB.findScan]

lemma findScan_setScan (db : DB) (sid : String) (f : ScanRecord → ScanRecord) :
    (db.setScan sid f).findScan sid = (db.findScan sid).map f := by
  simp only [DB.setScan, DB.findScan]
  induction db.scans with
  | nil => rfl
  | cons kv rest ih =>
    by_cases h : kv.1 = sid
    · simp [List.find?, h]
    · simpa [List.find?, h] using ih

lemma used_setScan (db : DB) (sid : String) (f : ScanRecord → ScanRecord) :
    (db.setScan sid f).monthly_scans_used = db.monthly_scans_used := rfl

lemma used_insertScan (db : DB) (sid : String) (u d : List Char) :
    (db.insertScan sid u d).monthly_scans_used = db.monthly_scans_used := rfl

lemma scan_url_run (env : ScanEnv) (db : DB) (url u : List Char) (sid : String)
    (hnorm : normalize_url url = some u)
    (hlim : check_scan_limits env db = true)
    (hc : env.create_record = .ok sid) :
    scan_url env db url =
      scan_try env (db.insertScan sid u (urlparse_scheme_netloc u).2) u sid := by
  simp [scan_url, hnorm, hlim, hc]

lemma scan_try_updErr (env : ScanEnv) (db : DB) (url : List Char) (sid e : String)
    (hupd : env.update_status = .error e) (hm : env.mark_failed = .ok ()) :
    scan_try env db url sid = ⟨.ok none, mark_scan_failed db sid e, []⟩ := by
  simp [scan_try, scan_handle_error, hupd, hm]

lemma scan_try_fetchFalsy (env : ScanEnv) (db : DB) (url : List Char) (sid : String)
    (html? : Option String) (st lt : Nat)
    (hupd : env.update_status = .ok ())
    (hf : fetch_page env = (html?, st, lt))
    (hfalsy : html? = none ∨ html? = some "")
    (hm : env.mark_failed = .ok ()) :
    scan_try env db url sid =
      ⟨.ok none,
        mark_scan_failed (db.setScan sid processingUpdate) sid
          ("Failed to fetch page: HTTP " ++ toString st),
        [Step.httpGet]⟩ := by
  simp [scan_try, hupd, hf, hfalsy, hm]

lemma scan_try_finalErr (env : ScanEnv) (db : DB) (url : List Char) (sid : String)
    (h : String) (st lt : Nat) (e : String)
    (hupd : env.update_status = .ok ())
    (hf : fetch_page env = (some h, st, lt))
    (hne : h ≠ "")
    (hfin : env.final_update = .error e)
    (hm : env.mark_failed = .ok ()) :
    scan_try env db url sid =
      ⟨.ok none,
        mark_scan_failed (db.setScan sid processingUpdate) sid e,
        [Step.httpGet, Step.htmlParse, Step.fieldExtraction,
         Step.severityBucketing, Step.ruleDeductions, Step.weightedSum]⟩ := by
  simp [scan_try, scan_handle_error, hupd, hf, hne, hfin, hm]

lemma scan_try_success (env : ScanEnv) (db : DB) (url : List Char) (sid : String)
    (h : String) (st lt : Nat)
    (hupd : env.update_status = .ok ())
    (hf : fetch_page env = (some h, st, lt))
    (hne : h ≠ "")
    (hfin : env.final_update = .ok ()) :
    scan_try env db url sid =
      ⟨.ok (some sid),
        increment_scan_counter env
          ((db.setScan sid processingUpdate).setScan sid
            (completedUpdate (scan_data_of env url h st lt))),
        [Step.httpGet, Step.htmlParse, Step.fieldExtraction,
         Step.severityBucketing, Step.ruleDeductions, Step.weightedSum]⟩ := by
  simp [scan_try, hupd, hf, hne, hfin]

lemma scan_url_badurl (env : ScanEnv) (db : DB) (url : List Char)
    (hnorm : normalize_url url = none) :
    scan_url env db url = ⟨.ok none, db, []⟩ := by
  simp [scan_url, hnorm]

lemma scan_url_limits (env : ScanEnv) (db : DB) (url u : List Char)
    (hnorm : normalize_url url = some u)
    (hlim : check_scan_limits env db = false) :
    scan_url env db url = ⟨.ok none, db, []⟩ := by
  simp [scan_url, hnorm, hlim]

/-- C3 (counterexample): an exception raised by the scan-record insert —
an external call made while executing a scan — propagates out of
`scan_url` instead of yielding `None`: `_create_scan_record` re-raises
it and the call sits outside the `try` block. -/
theorem C3_counterexample_insert_raises :
    (scan_url (demoEnv (.error "insert failed") (.ok ()) (.ok ⟨none, "x", 200, 10⟩) (.ok ()))
      demoDB demoUrl).result = .error "insert failed" ∧
    (scan_url (demoEnv (.error "insert failed") (.ok ()) (.ok ⟨none, "x", 200, 10⟩) (.ok ()))
      demoDB demoUrl).result ≠ .ok none := by
  constructor
  · rfl
  · decide

/-- C3 (amended): `scan_url` returns `None` rather than propagating for
an invalid URL, an exceeded scan limit, a failed fetch, and any
exception raised inside the `try` block — provided the scan-record
insert and the failure-marking update themselves do not raise (either
of those two exceptions propagates). -/
theorem C3_scan_url_returns_none (env : ScanEnv) (db : DB) (url : List Char) (sid : String)
    (hc : env.create_record = .ok sid)
    (hm : env.mark_failed = .ok ()) :
    ∃ o, (scan_url env db url).result = .ok o := by
  cases hnorm : normalize_url url with
  | none => exact ⟨none, by rw [scan_url_badurl env db url hnorm]⟩
  | some u =>
    by_cases hlim : check_scan_limits env db
    · rw [scan_url_run env db url u sid hnorm hlim hc]
      generalize db.insertScan sid u (urlparse_scheme_netloc u).2 = db1
      cases hupd : env.update_status with
      | error e =>
        exact ⟨none, by rw [scan_try_updErr env db1 u sid e hupd hm]⟩
      | ok x =>
        obtain ⟨⟩ := x
        rcases hf : fetch_page env with ⟨html?, st, lt⟩
        by_cases hfal : html? = none ∨ html? = some ""
        · exact ⟨none, by rw [scan_try_fetchFalsy env db1 u sid html? st lt hupd hf hfal hm]⟩
        · push_neg at hfal
          obtain ⟨hfal1, hfal2⟩ := hfal
          cases html? with
          | none => exact absurd rfl hfal1
          | some h =>
            have hne : h ≠ "" := fun hh => hfal2 (by rw [hh])
            cases hfin : env.final_update with
            | error e =>
              exact ⟨none, by rw [scan_try_finalErr env db1 u sid h st lt e hupd hf hne hfin hm]⟩
            | ok y =>
              obtain ⟨⟩ := y
              exact ⟨some sid, by rw [scan_try_success env db1 u sid h st lt hupd hf hne hfin]⟩
    · exact ⟨none, by
        rw [scan_url_limits env db url u hnorm (Bool.not_eq_true _ ▸ hlim)]⟩

/-- Witness for the amended C3 at a concrete environment whose status
update raises. -/
theorem C3_scan_url_returns_none_witness :
    ∃ o, (scan_url
      (demoEnv (.ok "scan-1") (.error "update raised") (.ok ⟨none, "x", 200, 10⟩) (.ok ()))
      demoDB demoUrl).result = .ok o :=
  C3_scan_url_returns_none
    (demoEnv (.ok "scan-1") (.error "update raised") (.ok ⟨none, "x", 200, 10⟩) (.ok ()))
    demoDB demoUrl "scan-1" rfl rfl

lemma fetch_page_error (env : ScanEnv) (msg : String)
    (hfe : env.fetch = .error msg) : fetch_page env = (none, 0, 0) := by
  simp [fetch_page, hfe]

/-- C6 (counterexample): for an exception raised during the fetch
(a `requests.RequestException`), the scan record is marked `failed`
with the constructed message `"Failed to fetch page: HTTP 0"`, not with
the exception's message: `_fetch_page` swallows the exception and
`scan_url` only sees the missing body. -/
theorem C6_counterexample_fetch_message :
    ((scan_url (demoEnv (.ok "scan-1") (.ok ()) (.error "connection refused") (.ok ()))
      demoDB demoUrl).db.findScan "scan-1").map ScanRecord.error_message =
        some (some "Failed to fetch page: HTTP 0") ∧
    some (some "Failed to fetch page: HTTP 0") ≠
      some (some ("connection refused" : String)) ∧
    (scan_url (demoEnv (.ok "scan-1") (.ok ()) (.error "connection refused") (.ok ()))
      demoDB demoUrl).result = .ok none := by
  refine ⟨by decide, by decide, by decide⟩

/-- C6 (amended): once the scan record exists (and assuming the
failure-marking and counter updates themselves succeed), an exception
in the `processing` status update or in the final record update marks
the record `failed` with that exception's message and a completion
timestamp, returns `None` and leaves the monthly counter unchanged; an
exception during the fetch likewise marks the record `failed`, returns
`None` and leaves the counter unchanged, but with the constructed
message `"Failed to fetch page: HTTP 0"` instead of the exception's
message; and a successful scan increments the counter exactly once. -/
theorem C6_failed_scan_bookkeeping (env : ScanEnv) (db : DB) (url u : List Char) (sid : String)
    (hnorm : normalize_url url = some u)
    (hlim : check_scan_limits env db = true)
    (hc : env.create_record = .ok sid)
    (hm : env.mark_failed = .ok ()) :
    (∀ e, env.update_status = .error e →
      (scan_url env db url).result = .ok none ∧
      (scan_url env db url).db.findScan sid =
        some { url := u, domain := (urlparse_scheme_netloc u).2, status := "failed",
               error_message := some e, completed_at_set := true, data := none } ∧
      (scan_url env db url).db.monthly_scans_used = db.monthly_scans_used) ∧
    (∀ h st lt e, env.update_status = .ok () → fetch_page env = (some h, st, lt) →
      h ≠ "" → env.final_update = .error e →
      (scan_url env db url).result = .ok none ∧
      (scan_url env db url).db.findScan sid =
        some { url := u, domain := (urlparse_scheme_netloc u).2, status := "failed",
               error_message := some e, completed_at_set := true, data := none } ∧
      (scan_url env db url).db.monthly_scans_used = db.monthly_scans_used) ∧
    (∀ e, env.update_status = .ok () → env.fetch = .error e →
      (scan_url env db url).result = .ok none ∧
      (scan_url env db url).db.findScan sid =
        some { url := u, domain := (urlparse_scheme_netloc u).2, status := "failed",
               error_message := some ("Failed to fetch page: HTTP " ++ toString (0 : Nat)),
               completed_at_set := true, data := none } ∧
      (scan_url env db url).db.monthly_scans_used = db.monthly_scans_used) ∧
    (∀ h st lt, env.update_status = .ok () → fetch_page env = (some h, st, lt) →
      h ≠ "" → env.final_update = .ok () → env.counter_update = .ok () →
      (scan_url env db url).result = .ok (some sid) ∧
      (scan_url env db url).db.monthly_scans_used = db.monthly_scans_used + 1) := by
  refine ⟨?_, ?_, ?_, ?_⟩
  · intro e hupd
    rw [scan_url_run env db url u sid hnorm hlim hc,
      scan_try_updErr env _ u sid e hupd hm]
    refine ⟨rfl, ?_, rfl⟩
    show (mark_scan_failed (db.insertScan sid u (urlparse_scheme_netloc u).2) sid e).findScan
        sid = _
    unfold mark_scan_failed
    rw [findScan_setScan, findScan_insertScan]
    rfl
  · intro h st lt e hupd hf hne hfin
    rw [scan_url_run env db url u sid hnorm hlim hc,
      scan_try_finalErr env _ u sid h st lt e hupd hf hne hfin hm]
    refine ⟨rfl, ?_, rfl⟩
    show (mark_scan_failed ((db.insertScan sid u
        (urlparse_scheme_netloc u).2).setScan sid processingUpdate) sid e).findScan sid = _
    unfold mark_scan_failed
    rw [findScan_setScan, findScan_setScan, findScan_insertScan]
    rfl
  · intro e hupd hfe
    rw [scan_url_run env db url u sid hnorm hlim hc,
      scan_try_fetchFalsy env _ u sid none 0 0 hupd (fetch_page_error env e hfe)
        (Or.inl rfl) hm]
    refine ⟨rfl, ?_, rfl⟩
    show (mark_scan_failed ((db.insertScan sid u
        (urlparse_scheme_netloc u).2).setScan sid processingUpdate) sid _).findScan sid = _
    unfold mark_scan_failed
    rw [findScan_setScan, findScan_setScan, findScan_insertScan]
    rfl
  · intro h st lt hupd hf hne hfin hcnt
    rw [scan_url_run env db url u sid hnorm hlim hc,
      scan_try_success env _ u sid h st lt hupd hf hne hfin]
    exact ⟨rfl, by simp [increment_scan_counter, hcnt, used_setScan, used_insertScan]⟩

/-- Witness for the amended C6: a raising status update marks the
record failed with that message and leaves the counter at 0; a clean
run returns the scan id and moves the counter from 0 to 1. -/
theorem C6_failed_scan_bookkeeping_witness :
    ((scan_url
      (demoEnv (.ok "scan-1") (.error "update raised") (.ok ⟨none, "<html>", 200, 10⟩) (.ok ()))
      demoDB demoUrl).result = .ok none ∧
     (scan_url
      (demoEnv (.ok "scan-1") (.error "update raised") (.ok ⟨none, "<html>", 200, 10⟩) (.ok ()))
      demoDB demoUrl).db.findScan "scan-1" =
        some { url := demoNormUrl, domain := "example.com".toList, status := "failed",
               error_message := some "update raised", completed_at_set := true,
               data := none } ∧
     (scan_url
      (demoEnv (.ok "scan-1") (.error "update raised") (.ok ⟨none, "<html>", 200, 10⟩) (.ok ()))
      demoDB demoUrl).db.monthly_scans_used = demoDB.monthly_scans_used) ∧
    ((scan_url
      (demoEnv (.ok "scan-1") (.ok ()) (.ok ⟨none, "<html>", 200, 10⟩) (.ok ()))
      demoDB demoUrl).result = .ok (some "scan-1") ∧
     (scan_url
      (demoEnv (.ok "scan-1") (.ok ()) (.ok ⟨none, "<html>", 200, 10⟩) (.ok ()))
      demoDB demoUrl).db.monthly_scans_used = demoDB.monthly_scans_used + 1) :=
  ⟨by
    have h := (C6_failed_scan_bookkeeping
      (demoEnv (.ok "scan-1") (.error "update raised") (.ok ⟨none, "<html>", 200, 10⟩) (.ok ()))
      demoDB demoUrl demoNormUrl "scan-1" (by decide) (by decide) rfl rfl).1
      "update raised" rfl
    exact ⟨h.1, by rw [h.2.1]; decide, h.2.2⟩,
   by
    have h := (C6_failed_scan_bookkeeping
      (demoEnv (.ok "scan-1") (.ok ()) (.ok ⟨none, "<html>", 200, 10⟩) (.ok ()))
      demoDB demoUrl demoNormUrl "scan-1" (by decide) (by decide) rfl rfl).2.2.2
      "<html>" 200 10 rfl rfl (by decide) rfl rfl
    exact ⟨h.1, h.2⟩⟩

lemma scan_url_createErr (env : ScanEnv) (db : DB) (url u : List Char) (e : String)
    (hnorm : normalize_url url = some u)
    (hlim : check_scan_limits env db = true)
    (hc : env.create_record = .error e) :
    scan_url env db url = ⟨.error e, db, []⟩ := by
  simp [scan_url, hnorm, hlim, hc]

lemma scan_try_updErr_markErr (env : ScanEnv) (db : DB) (url : List Char) (sid e e2 : String)
    (hupd : env.update_status = .error e) (hm : env.mark_failed = .error e2) :
    scan_try env db url sid = ⟨.error e2, db, []⟩ := by
  simp [scan_try, scan_handle_error, hupd, hm]

lemma scan_try_fetchFalsy_markErr (env : ScanEnv) (db : DB) (url : List Char) (sid : String)
    (html? : Option String) (st lt : Nat) (e2 : String)
    (hupd : env.update_status = .ok ())
    (hf : fetch_page env = (html?, st, lt))
    (hfalsy : html? = none ∨ html? = some "")
    (hm : env.mark_failed = .error e2) :
    scan_try env db url sid =
      ⟨.error e2, db.setScan sid processingUpdate, [Step.httpGet]⟩ := by
  simp [scan_try, hupd, hf, hfalsy, hm]

lemma scan_try_finalErr_markErr (env : ScanEnv) (db : DB) (url : List Char) (sid : String)
    (h : String) (st lt : Nat) (e e2 : String)
    (hupd : env.update_status = .ok ())
    (hf : fetch_page env = (some h, st, lt))
    (hne : h ≠ "")
    (hfin : env.final_update = .error e)
    (hm : env.mark_failed = .error e2) :
    scan_try env db url sid =
      ⟨.error e2, db.setScan sid processingUpdate,
        [Step.httpGet, Step.htmlParse, Step.fieldExtraction,
         Step.severityBucketing, Step.ruleDeductions, Step.weightedSum]⟩ := by
  simp [scan_try, scan_handle_error, hupd, hf, hne, hfin, hm]

/-- C4 (counterexample): on a concrete successful scan the pipeline
runs fetch, parse, extraction, then severity bucketing, and only then
the score deductions and weighted sum — not, as the claim orders them,
deductions and weighted sum before severity bucketing. -/
theorem C4_counterexample_order :
    (scan_url (demoEnv (.ok "scan-1") (.ok ()) (.ok ⟨none, "<html>", 200, 10⟩) (.ok ()))
      demoDB demoUrl).steps =
      [Step.httpGet, Step.htmlParse, Step.fieldExtraction,
       Step.severityBucketing, Step.ruleDeductions, Step.weightedSum] ∧
    (scan_url (demoEnv (.ok "scan-1") (.ok ()) (.ok ⟨none, "<html>", 200, 10⟩) (.ok ()))
      demoDB demoUrl).steps ≠
      [Step.httpGet, Step.htmlParse, Step.fieldExtraction,
       Step.ruleDeductions, Step.weightedSum, Step.severityBucketing] := by
  exact ⟨by decide, by decide⟩

/-- C4 (amended): every scan that returns a scan id executed the linear
pipeline HTTP GET → HTML parse → field extraction → severity bucketing
→ rule-based deductions → weighted sum, with no other control flow
between the stages; the severity bucketing precedes the deductions and
the weighted sum, not the other way around. -/
theorem C4_pipeline_order (env : ScanEnv) (db : DB) (url : List Char) (sid : String) :
    (scan_url env db url).result = .ok (some sid) →
    (scan_url env db url).steps =
      [Step.httpGet, Step.htmlParse, Step.fieldExtraction,
       Step.severityBucketing, Step.ruleDeductions, Step.weightedSum] := by
  intro hres
  cases hnorm : normalize_url url with
  | none => rw [scan_url_badurl env db url hnorm] at hres; simp at hres
  | some u =>
    by_cases hlim : check_scan_limits env db
    · cases hcr : env.create_record with
      | error e =>
        rw [scan_url_createErr env db url u e hnorm hlim hcr] at hres
        simp at hres
      | ok sid' =>
        rw [scan_url_run env db url u sid' hnorm hlim hcr] at hres ⊢
        generalize db.insertScan sid' u (urlparse_scheme_netloc u).2 = db1 at hres ⊢
        cases hupd : env.update_status with
        | error e =>
          cases hmk : env.mark_failed with
          | error e2 =>
            rw [scan_try_updErr_markErr env db1 u sid' e e2 hupd hmk] at hres
            simp at hres
          | ok y =>
            obtain ⟨⟩ := y
            rw [scan_try_updErr env db1 u sid' e hupd hmk] at hres
            simp at hres
        | ok x =>
          obtain ⟨⟩ := x
          rcases hf : fetch_page env with ⟨html?, st, lt⟩
          by_cases hfal : html? = none ∨ html? = some ""
          · cases hmk : env.mark_failed with
            | error e2 =>
              rw [scan_try_fetchFalsy_markErr env db1 u sid' html? st lt e2 hupd hf hfal hmk]
                at hres
              simp at hres
            | ok y =>
              obtain ⟨⟩ := y
              rw [scan_try_fetchFalsy env db1 u sid' html? st lt hupd hf hfal hmk] at hres
              simp at hres
          · push_neg at hfal
            obtain ⟨hfal1, hfal2⟩ := hfal
            cases html? with
            | none => exact absurd rfl hfal1
            | some h =>
              have hne : h ≠ "" := fun hh => hfal2 (by rw [hh])
              cases hfin : env.final_update with
              | error e =>
                cases hmk : env.mark_failed with
                | error e2 =>
                  rw [scan_try_finalErr_markErr env db1 u sid' h st lt e e2
                    hupd hf hne hfin hmk] at hres
                  simp at hres
                | ok y =>
                  obtain ⟨⟩ := y
                  rw [scan_try_finalErr env db1 u sid' h st lt e hupd hf hne hfin hmk] at hres
                  simp at hres
              | ok y =>
                obtain ⟨⟩ := y
                rw [scan_try_success env db1 u sid' h st lt hupd hf hne hfin]
    · rw [scan_url_limits env db url u hnorm (Bool.not_eq_true _ ▸ hlim)] at hres
      simp at hres

/-- Witness for the amended C4 at a concrete successful scan. -/
theorem C4_pipeline_order_witness :
    (scan_url (demoEnv (.ok "scan-1") (.ok ()) (.ok ⟨none, "<html>", 200, 10⟩) (.ok ()))
      demoDB demoUrl).steps =
      [Step.httpGet, Step.htmlParse, Step.fieldExtraction,
       Step.severityBucketing, Step.ruleDeductions, Step.weightedSum] :=
  C4_pipeline_order
    (demoEnv (.ok "scan-1") (.ok ()) (.ok ⟨none, "<html>", 200, 10⟩) (.ok ()))
    demoDB demoUrl "scan-1" (by decide)

/-- C9: `_fetch_page` returns no HTML content — `(None, status,
load_time)` — whenever the response carries a `Content-Length` header
exceeding `MAX_PAGE_SIZE` (10 MiB), and the enclosing scan is then
marked `failed`; a response without a `Content-Length` header is read
in full regardless of its body's actual size. -/
theorem C9_content_length_guard (env : ScanEnv) (db : DB) (url u : List Char)
    (sid : String) (r : FetchResp) (n : Nat) :
    (env.fetch = .ok r → r.contentLengthHdr = some n → n > MAX_PAGE_SIZE →
      fetch_page env = (none, r.status, r.loadTimeMs)) ∧
    (env.fetch = .ok r → r.contentLengthHdr = none →
      fetch_page env = (some r.body, r.status, r.loadTimeMs)) ∧
    (env.fetch = .ok r → r.contentLengthHdr = some n → n > MAX_PAGE_SIZE →
      normalize_url url = some u → check_scan_limits env db = true →
      env.create_record = .ok sid → env.update_status = .ok () →
      env.mark_failed = .ok () →
      (scan_url env db url).result = .ok none ∧
      ((scan_url env db url).db.findScan sid).map ScanRecord.status = some "failed") := by
  refine ⟨?_, ?_, ?_⟩
  · intro hfe hcl hgt
    simp [fetch_page, hfe, hcl, hgt]
  · intro hfe hcl
    simp [fetch_page, hfe, hcl]
  · intro hfe hcl hgt hnorm hlim hc hupd hm
    have hfp : fetch_page env = (none, r.status, r.loadTimeMs) := by
      simp [fetch_page, hfe, hcl, hgt]
    rw [scan_url_run env db url u sid hnorm hlim hc,
      scan_try_fetchFalsy env _ u sid none r.status r.loadTimeMs hupd hfp (Or.inl rfl) hm]
    refine ⟨rfl, ?_⟩
    show ((mark_scan_failed ((db.insertScan sid u
        (urlparse_scheme_netloc u).2).setScan sid processingUpdate) sid _).findScan sid).map
      ScanRecord.status = _
    unfold mark_scan_failed
    rw [findScan_setScan, findScan_setScan, findScan_insertScan]
    rfl

/-- Witness for C9: a response declaring `Content-Length` of
10 MiB + 1 is dropped and fails the scan; a response with no
`Content-Length` and the same large body is read in full. -/
theorem C9_content_length_guard_witness :
    (fetch_page (demoEnv (.ok "scan-1") (.ok ())
        (.ok ⟨some (10 * 1024 * 1024 + 1), "big", 200, 5⟩) (.ok ())) =
      (none, 200, 5)) ∧
    (fetch_page (demoEnv (.ok "scan-1") (.ok ())
        (.ok ⟨none, "big", 200, 5⟩) (.ok ())) =
      (some "big", 200, 5)) ∧
    ((scan_url (demoEnv (.ok "scan-1") (.ok ())
        (.ok ⟨some (10 * 1024 * 1024 + 1), "big", 200, 5⟩) (.ok ()))
      demoDB demoUrl).result = .ok none ∧
     ((scan_url (demoEnv (.ok "scan-1") (.ok ())
        (.ok ⟨some (10 * 1024 * 1024 + 1), "big", 200, 5⟩) (.ok ()))
      demoDB demoUrl).db.findScan "scan-1").map ScanRecord.status = some "failed") :=
  ⟨(C9_content_length_guard (demoEnv (.ok "scan-1") (.ok ())
        (.ok ⟨some (10 * 1024 * 1024 + 1), "big", 200, 5⟩) (.ok ()))
      demoDB demoUrl demoNormUrl "scan-1"
      ⟨some (10 * 1024 * 1024 + 1), "big", 200, 5⟩ (10 * 1024 * 1024 + 1)).1
      rfl rfl (by decide),
   (C9_content_length_guard (demoEnv (.ok "scan-1") (.ok ())
        (.ok ⟨none, "big", 200, 5⟩) (.ok ()))
      demoDB demoUrl demoNormUrl "scan-1"
      ⟨none, "big", 200, 5⟩ 0).2.1 rfl rfl,
   (C9_content_length_guard (demoEnv (.ok "scan-1") (.ok ())
        (.ok ⟨some (10 * 1024 * 1024 + 1), "big", 200, 5⟩) (.ok ()))
      demoDB demoUrl demoNormUrl "scan-1"
      ⟨some (10 * 1024 * 1024 + 1), "big", 200, 5⟩ (10 * 1024 * 1024 + 1)).2.2
      rfl rfl (by decide) (by decide) (by decide) rfl rfl rfl⟩

lemma findAllNodes_append (p : String → List (String × String) → Bool)
    (xs ys : List Node) :
    findAllNodes p (xs ++ ys) = findAllNodes p xs ++ findAllNodes p ys := by
  induction xs with
  | nil => simp [findAllNodes]
  | cons n rest ih => simp [findAllNodes, ih, List.append_assoc]

lemma findScan_increment (env : ScanEnv) (db : DB) (sid : String) :
    (increment_scan_counter env db).findScan sid = db.findScan sid := by
  unfold increment_scan_counter
  cases env.counter_update <;> rfl

mutual

theorem findAll_removeTagsNode_nil (tags : List String) (tag : String)
    (hIn : tag ∈ tags) (n : Node) :
    findAllNodes (fun t _ => t = tag) (removeTagsNode tags n) = [] := by
  cases n with
  | text s => simp [removeTagsNode, findAllNodes, findAllNode]
  | elem t a c =>
    by_cases ht : t ∈ tags
    · simp [removeTagsNode, ht, findAllNodes]
    · have htag : ¬ t = tag := fun hh => ht (hh ▸ hIn)
      simp [removeTagsNode, ht, findAllNodes, findAllNode, htag,
        findAll_removeTagsNodes_nil tags tag hIn c]

theorem findAll_removeTagsNodes_nil (tags : List String) (tag : String)
    (hIn : tag ∈ tags) (ns : List Node) :
    findAllNodes (fun t _ => t = tag) (removeTagsNodes tags ns) = [] := by
  cases ns with
  | nil => simp [removeTagsNodes, findAllNodes]
  | cons n rest =>
    have h1 := findAll_removeTagsNode_nil tags tag hIn n
    have h2 := findAll_removeTagsNodes_nil tags tag hIn rest
    simp [removeTagsNodes, findAllNodes_append, h1, h2]

end

/-- C10: `_analyze_content` prunes the parsed document — the model
returns the pruned soup the in-place `decompose()` calls leave behind —
removing every `script`, `style` and `noscript` element; because
`scan_url` runs it before `_analyze_images` and `_analyze_links`, those
two (and the structured-data pass) receive the pruned soup, so images
and links inside the removed elements are excluded from the counts,
while the metadata extracted before the call comes from the original
soup; the completed scan record stores exactly this payload. -/
theorem C10_decompose_excludes_script_content :
    (∀ soup : Soup,
      (analyze_content soup).2 = removeTagsNodes ["script", "style", "noscript"] soup) ∧
    (∀ (soup : Soup) (tag : String), tag ∈ ["script", "style", "noscript"] →
      findAllTag tag (analyze_content soup).2 = []) ∧
    (∀ (env : ScanEnv) (url : List Char) (html : String) (st lt : Nat),
      (scan_data_of env url html st lt).metadata = extract_metadata (env.parse html) url ∧
      (scan_data_of env url html st lt).images =
        analyze_images (analyze_content (env.parse html)).2 url ∧
      (scan_data_of env url html st lt).links =
        analyze_links (analyze_content (env.parse html)).2 url) ∧
    (∀ (env : ScanEnv) (db : DB) (url u : List Char) (sid h : String) (st lt : Nat),
      normalize_url url = some u → check_scan_limits env db = true →
      env.create_record = .ok sid → env.update_status = .ok () →
      fetch_page env = (some h, st, lt) → h ≠ "" → env.final_update = .ok () →
      ((scan_url env db url).db.findScan sid).map ScanRecord.data =
        some (some (scan_data_of env u h st lt))) := by
  refine ⟨fun soup => rfl, ?_, fun env url html st lt => ⟨rfl, rfl, rfl⟩, ?_⟩
  · intro soup tag hIn
    show findAllTag tag (removeTagsNodes ["script", "style", "noscript"] soup) = []
    exact findAll_removeTagsNodes_nil _ tag hIn soup
  · intro env db url u sid h st lt hnorm hlim hc hupd hf hne hfin
    rw [scan_url_run env db url u sid hnorm hlim hc,
      scan_try_success env _ u sid h st lt hupd hf hne hfin]
    show ((increment_scan_counter env _).findScan sid).map ScanRecord.data = _
    rw [findScan_increment, findScan_setScan, findScan_setScan, findScan_insertScan]
    rfl

/-- Witness for C10: on a document whose only image and link live in a
`script` element, the pipeline counts 0 images and 0 links where the
unpruned soup has 1 of each, the title survives, and the stored scan
payload is the pipeline's. -/
theorem C10_decompose_excludes_script_content_witness :
    (findAllTag "script" (analyze_content demoSoup).2 = []) ∧
    ((analyze_images demoSoup demoNormUrl).image_count = 1) ∧
    ((analyze_images (analyze_content demoSoup).2 demoNormUrl).image_count = 0) ∧
    ((analyze_links demoSoup demoNormUrl).link_count = 1) ∧
    ((analyze_links (analyze_content demoSoup).2 demoNormUrl).link_count = 0) ∧
    ((extract_metadata demoSoup demoNormUrl).title = some "Demo") ∧
    (((scan_url
        { parse := fun _ => demoSoup, jsonOk := fun _ => false,
          limits_read := .ok (), create_record := .ok "scan-1",
          update_status := .ok (), fetch := .ok ⟨none, "<html>", 200, 10⟩,
          final_update := .ok (), mark_failed := .ok (), counter_update := .ok () }
        demoDB demoUrl).db.findScan "scan-1").map ScanRecord.data =
      some (some (scan_data_of
        { parse := fun _ => demoSoup, jsonOk := fun _ => false,
          limits_read := .ok (), create_record := .ok "scan-1",
          update_status := .ok (), fetch := .ok ⟨none, "<html>", 200, 10⟩,
          final_update := .ok (), mark_failed := .ok (), counter_update := .ok () }
        demoNormUrl "<html>" 200 10)) ∧
     (scan_data_of
        { parse := fun _ => demoSoup, jsonOk := fun _ => false,
          limits_read := .ok (), create_record := .ok "scan-1",
          update_status := .ok (), fetch := .ok ⟨none, "<html>", 200, 10⟩,
          final_update := .ok (), mark_failed := .ok (), counter_update := .ok () }
        demoNormUrl "<html>" 200 10).images.image_count = 0) :=
  ⟨C10_decompose_excludes_script_content.2.1 demoSoup "script" (by decide),
   by decide, by decide, by decide, by decide, by decide,
   C10_decompose_excludes_script_content.2.2.2
     { parse := fun _ => demoSoup, jsonOk := fun _ => false,
       limits_read := .ok (), create_record := .ok "scan-1",
       update_status := .ok (), fetch := .ok ⟨none, "<html>", 200, 10⟩,
       final_update := .ok (), mark_failed := .ok (), counter_update := .ok () }
     demoDB demoUrl demoNormUrl "scan-1" "<html>" 200 10
     (by decide) (by decide) rfl rfl rfl (by decide) rfl,
   by decide⟩

/-! ### Credits (C2, C7) -/

open AIService in
/-- C2: starting from a non-negative stored balance, and whatever the
outcome of each Supabase call inside it, `deduct_credits` keeps the
balance non-negative: it updates the balance and appends the
`credit_transactions` row only when the current balance covers the
requested amount, and otherwise returns `False` with the profile
balance and the ledger unchanged. -/
theorem C2_deduct_credits_nonneg (env : AIEnv) (db : AIDB) (user_id : String)
    (amount : Int) (operation_type : String) (scan_id : Option String)
    (tokens_used : Nat) (h : 0 ≤ db.credits_balance) :
    (0 ≤ (deduct_credits env db user_id amount operation_type scan_id
        tokens_used).2.credits_balance) ∧
    (db.credits_balance < amount →
      deduct_credits env db user_id amount operation_type scan_id tokens_used =
        (false, db)) ∧
    ((deduct_credits env db user_id amount operation_type scan_id tokens_used).1 = true →
      db.credits_balance ≥ amount ∧
      (deduct_credits env db user_id amount operation_type scan_id
          tokens_used).2.credits_balance = db.credits_balance - amount ∧
      (deduct_credits env db user_id amount operation_type scan_id
          tokens_used).2.credit_transactions = db.credit_transactions ++
        [{ user_id := user_id, txn_type := "credit_usage", amount := -amount,
           balance_after := db.credits_balance - amount, reference_id := scan_id,
           reference_type := "ai_operation",
           description := "AI credits used for " ++ operation_type }]) := by
  unfold deduct_credits
  cases env.deduct_read with
  | error e => exact ⟨h, fun _ => rfl, fun hc => by simp at hc⟩
  | ok u =>
    simp only []
    split_ifs with h1 h2
    all_goals
      first
        | exact ⟨h, fun _ => rfl, fun hc => by simp at hc⟩
        | (cases env.deduct_update with
           | error e => exact ⟨h, fun _ => rfl, fun hc => by simp at hc⟩
           | ok u2 =>
             simp only []
             cases env.deduct_insert with
             | error e =>
               exact ⟨by show 0 ≤ db.credits_balance - amount; omega,
                      fun hlt => by exfalso; omega,
                      fun hc => by simp at hc⟩
             | ok u3 =>
               exact ⟨by show 0 ≤ db.credits_balance - amount; omega,
                      fun hlt => by exfalso; omega,
                      fun _ => ⟨by omega, rfl, rfl⟩⟩)

open AIService in
/-- Witness for C2: with every Supabase call succeeding, from balance
500 deducting 100 succeeds and lands on 400; from balance 40 deducting
100 is refused and changes nothing. -/
theorem C2_deduct_credits_nonneg_witness :
    ((0 : Int) ≤ (⟨true, 500, 0, [], []⟩ : AIDB).credits_balance) ∧
    (0 ≤ (deduct_credits ⟨.ok "r", fun t => .ok t, .ok (), .ok (), .ok (), .ok ()⟩
        ⟨true, 500, 0, [], []⟩ "u" 100 "seo_audit" none 0).2.credits_balance) ∧
    ((⟨true, 40, 0, [], []⟩ : AIDB).credits_balance < 100) ∧
    (deduct_credits ⟨.ok "r", fun t => .ok t, .ok (), .ok (), .ok (), .ok ()⟩
        ⟨true, 40, 0, [], []⟩ "u" 100 "seo_audit" none 0 =
      (false, ⟨true, 40, 0, [], []⟩)) ∧
    ((deduct_credits ⟨.ok "r", fun t => .ok t, .ok (), .ok (), .ok (), .ok ()⟩
        ⟨true, 500, 0, [], []⟩ "u" 100 "seo_audit" none 0).2.credits_balance = 400) :=
  ⟨by decide,
   (C2_deduct_credits_nonneg ⟨.ok "r", fun t => .ok t, .ok (), .ok (), .ok (), .ok ()⟩
     ⟨true, 500, 0, [], []⟩ "u" 100 "seo_audit" none 0 (by decide)).1,
   by decide,
   (C2_deduct_credits_nonneg ⟨.ok "r", fun t => .ok t, .ok (), .ok (), .ok (), .ok ()⟩
     ⟨true, 40, 0, [], []⟩ "u" 100 "seo_audit" none 0 (by decide)).2.1 (by decide),
   by decide⟩

open AIService in
/-- C7 counterexample: an operation can return a result WITHOUT the
balance having been decremented.  `generate_seo_audit` calls
`deduct_credits` but only logs a `False` result
(src/ai_service.py:178-179); when the Supabase profile read inside
`deduct_credits` raises (here `"db down"`), `deduct_credits` catches it
and returns `False` with no writes, yet the audit report is still
returned and the balance is still 1000. -/
theorem C7_counterexample_deduct_failure_ignored :
    (generate_seo_audit
        ⟨.ok "r", fun t => .ok t, .ok (), .error "db down", .ok (), .ok ()⟩
        ⟨true, 1000, 0, [], []⟩ "u" "s" "pro").1.isSome = true ∧
    (generate_seo_audit
        ⟨.ok "r", fun t => .ok t, .ok (), .error "db down", .ok (), .ok ()⟩
        ⟨true, 1000, 0, [], []⟩ "u" "s" "pro").2.1.credits_balance = 1000 ∧
    (generate_seo_audit
        ⟨.ok "r", fun t => .ok t, .ok (), .error "db down", .ok (), .ok ()⟩
        ⟨true, 1000, 0, [], []⟩ "u" "s" "pro").2.1.credit_transactions = [] :=
  ⟨rfl, by decide, by decide⟩

open AIService in
/-- C7 (amended): for each AI operation (`seo_audit` at 100,
`keyword_research` at 50, `roadmap` at 120), a balance below the
operation's fixed `CREDIT_COSTS` entry makes the operation return
`None` without ever invoking the model and without touching the state
(this part holds whatever the Supabase calls do); but a returned result
only guarantees the balance was decremented by exactly the fixed cost
when the three Supabase calls inside `deduct_credits` (profile read,
balance update, ledger insert) all succeed — a `False` from
`deduct_credits` is merely logged, so if one of those calls raises, the
operation still returns its result with the deduction partly or wholly
unapplied. -/
theorem C7_ai_ops_credit_flow (env : AIEnv) (db : AIDB)
    (user_id scan_id user_tier pk industry audience goals : String)
    (hdr : env.deduct_read = .ok ()) (hdu : env.deduct_update = .ok ())
    (hdi : env.deduct_insert = .ok ()) :
    (db.credits_balance < 100 →
      generate_seo_audit env db user_id scan_id user_tier = (none, db, false)) ∧
    ((generate_seo_audit env db user_id scan_id user_tier).1.isSome →
      (generate_seo_audit env db user_id scan_id user_tier).2.1.credits_balance =
        db.credits_balance - 100) ∧
    (db.credits_balance < 50 →
      generate_keyword_research env db user_id pk industry audience = (none, db, false)) ∧
    ((generate_keyword_research env db user_id pk industry audience).1.isSome →
      (generate_keyword_research env db user_id pk industry audience).2.1.credits_balance =
        db.credits_balance - 50) ∧
    (db.credits_balance < 120 →
      generate_seo_roadmap env db user_id scan_id goals = (none, db, false)) ∧
    ((generate_seo_roadmap env db user_id scan_id goals).1.isSome →
      (generate_seo_roadmap env db user_id scan_id goals).2.1.credits_balance =
        db.credits_balance - 120) := by
  have hbelow : ∀ op : String, (CREDIT_COSTS op).getD 0 = 100 ∨
      (CREDIT_COSTS op).getD 0 = 50 ∨ (CREDIT_COSTS op).getD 0 = 120 →
      db.credits_balance < ((CREDIT_COSTS op).getD 0 : Nat) →
      (check_credits env db op).1 = false := by
    intro op _ hlt
    cases hck : env.check_read with
    | error e => simp [check_credits, hck]
    | ok u =>
      by_cases hp : db.profile_exists
      · simp only [check_credits, hck, hp, not_true, if_neg, if_false]
        simp only [Bool.not_eq_true, decide_eq_false_iff_not]
        omega
      · simp [check_credits, hck, hp]
  refine ⟨?_, ?_, ?_, ?_, ?_, ?_⟩
  · intro hlt
    have hc : (check_credits env db "seo_audit").1 = false :=
      hbelow "seo_audit" (Or.inl rfl) (by simpa [CREDIT_COSTS] using hlt)
    simp [generate_seo_audit, hc]
  · by_cases hc : (check_credits env db "seo_audit").1
    · have hck : env.check_read = .ok () := by
        cases hck2 : env.check_read with
        | error e => simp [check_credits, hck2] at hc
        | ok u => rfl
      have hp : db.profile_exists = true := by
        by_contra hp
        simp [check_credits, hck, hp] at hc
      have hge : ((100 : Nat) : Int) ≤ db.credits_balance := by
        simpa [check_credits, hck, hp, CREDIT_COSTS] using hc
      have hnlt : ¬ db.credits_balance < ((100 : Nat) : Int) := by omega
      cases hg : env.generate with
      | error e =>
        intro hsome
        simp [generate_seo_audit, hc, hg] at hsome
      | ok text =>
        intro _
        simp [generate_seo_audit, hc, hg, CREDIT_COSTS, deduct_credits, log_ai_usage,
          hp, hnlt, hdr, hdu, hdi]
        rw [if_neg (by omega)]
    · intro hsome
      simp [generate_seo_audit, Bool.not_eq_true _ ▸ hc] at hsome
  · intro hlt
    have hc : (check_credits env db "keyword_research").1 = false :=
      hbelow "keyword_research" (Or.inr (Or.inl rfl)) (by simpa [CREDIT_COSTS] using hlt)
    simp [generate_keyword_research, hc]
  · by_cases hc : (check_credits env db "keyword_research").1
    · have hck : env.check_read = .ok () := by
        cases hck2 : env.check_read with
        | error e => simp [check_credits, hck2] at hc
        | ok u => rfl
      have hp : db.profile_exists = true := by
        by_contra hp
        simp [check_credits, hck, hp] at hc
      have hge : ((50 : Nat) : Int) ≤ db.credits_balance := by
        simpa [check_credits, hck, hp, CREDIT_COSTS] using hc
      have hnlt : ¬ db.credits_balance < ((50 : Nat) : Int) := by omega
      cases hg : env.generate with
      | error e =>
        intro hsome
        simp [generate_keyword_research, hc, hg] at hsome
      | ok text =>
        intro _
        simp [generate_keyword_research, hc, hg, CREDIT_COSTS, deduct_credits,
          log_ai_usage, hp, hnlt, hdr, hdu, hdi]
        rw [if_neg (by omega)]
    · intro hsome
      simp [generate_keyword_research, Bool.not_eq_true _ ▸ hc] at hsome
  · intro hlt
    have hc : (check_credits env db "roadmap").1 = false :=
      hbelow "roadmap" (Or.inr (Or.inr rfl)) (by simpa [CREDIT_COSTS] using hlt)
    simp [generate_seo_roadmap, hc]
  · by_cases hc : (check_credits env db "roadmap").1
    · have hck : env.check_read = .ok () := by
        cases hck2 : env.check_read with
        | error e => simp [check_credits, hck2] at hc
        | ok u => rfl
      have hp : db.profile_exists = true := by
        by_contra hp
        simp [check_credits, hck, hp] at hc
      have hge : ((120 : Nat) : Int) ≤ db.credits_balance := by
        simpa [check_credits, hck, hp, CREDIT_COSTS] using hc
      have hnlt : ¬ db.credits_balance < ((120 : Nat) : Int) := by omega
      cases hg : env.generate with
      | error e =>
        intro hsome
        simp [generate_seo_roadmap, hc, hg] at hsome
      | ok text =>
        intro _
        simp [generate_seo_roadmap, hc, hg, CREDIT_COSTS, deduct_credits,
          log_ai_usage, hp, hnlt, hdr, hdu, hdi]
        rw [if_neg (by omega)]
    · intro hsome
      simp [generate_seo_roadmap, Bool.not_eq_true _ ▸ hc] at hsome

open AIService in
/-- Witness for C7: with every Supabase call succeeding, balance 10
makes each operation refuse without invoking the model; balance 1000
with a successful generation makes each operation return a result with
the balance dropped by its fixed cost. -/
theorem C7_ai_ops_credit_flow_witness :
    ((⟨true, 10, 0, [], []⟩ : AIDB).credits_balance < 100 ∧
     generate_seo_audit ⟨.ok "r", fun t => .ok t, .ok (), .ok (), .ok (), .ok ()⟩ ⟨true, 10, 0, [], []⟩ "u" "s" "pro" =
       (none, ⟨true, 10, 0, [], []⟩, false)) ∧
    ((generate_seo_audit ⟨.ok "r", fun t => .ok t, .ok (), .ok (), .ok (), .ok ()⟩ ⟨true, 1000, 0, [], []⟩
        "u" "s" "pro").1.isSome ∧
     (generate_seo_audit ⟨.ok "r", fun t => .ok t, .ok (), .ok (), .ok (), .ok ()⟩ ⟨true, 1000, 0, [], []⟩
        "u" "s" "pro").2.1.credits_balance = 1000 - 100) ∧
    ((generate_keyword_research ⟨.ok "r", fun t => .ok t, .ok (), .ok (), .ok (), .ok ()⟩ ⟨true, 1000, 0, [], []⟩
        "u" "k" "i" "a").2.1.credits_balance = 1000 - 50) ∧
    ((generate_seo_roadmap ⟨.ok "r", fun t => .ok t, .ok (), .ok (), .ok (), .ok ()⟩ ⟨true, 1000, 0, [], []⟩
        "u" "s" "g").2.1.credits_balance = 1000 - 120) :=
  ⟨⟨by decide,
    (C7_ai_ops_credit_flow ⟨.ok "r", fun t => .ok t, .ok (), .ok (), .ok (), .ok ()⟩ ⟨true, 10, 0, [], []⟩
      "u" "s" "pro" "k" "i" "a" "g" rfl rfl rfl).1 (by decide)⟩,
   ⟨rfl,
    (C7_ai_ops_credit_flow ⟨.ok "r", fun t => .ok t, .ok (), .ok (), .ok (), .ok ()⟩ ⟨true, 1000, 0, [], []⟩
      "u" "s" "pro" "k" "i" "a" "g" rfl rfl rfl).2.1 rfl⟩,
   (C7_ai_ops_credit_flow ⟨.ok "r", fun t => .ok t, .ok (), .ok (), .ok (), .ok ()⟩ ⟨true, 1000, 0, [], []⟩
      "u" "s" "pro" "k" "i" "a" "g" rfl rfl rfl).2.2.2.1 rfl,
   (C7_ai_ops_credit_flow ⟨.ok "r", fun t => .ok t, .ok (), .ok (), .ok (), .ok ()⟩ ⟨true, 1000, 0, [], []⟩
      "u" "s" "pro" "k" "i" "a" "g" rfl rfl rfl).2.2.2.2.2 rfl⟩

end NexusSEO
